import Mathlib

/-!
Shallow embedding of the HealthKit record classification and
unit-normalization engine of `datasets/me_db/health_kit/health_kit_lib.cc`.

Modelling conventions:
- fatal exits (the `FATAL` and `CHECK` macros of `phd/macros.h`) are
  modelled by `Option.none`;
- C++ `double` values are modelled as exact rational numbers (the decimal
  semantics of `strtod`); IEEE-754 binary rounding is not modelled;
- `int64_t` overflow is not modelled (`Int` is used throughout);
- the XML layer is modelled by its observable interface: a record element is
  a flat list of `(attribute name, attribute value)` string pairs.
-/

namespace Me

/-- The characters the C locale `isspace` accepts; `strtol` and `strtod`
skip a run of these before the number. -/
def cIsSpace (c : Char) : Bool :=
  c = ' ' || c = '\t' || c = '\n' || c = '\x0b' || c = '\x0c' || c = '\r'

/-- Drop the leading whitespace run, as `strtol`/`strtod` do. -/
def skipWs : List Char → List Char
  | [] => []
  | c :: r => if cIsSpace c then skipWs r else c :: r

/-- Numeric value of a digit run (most significant first). -/
def digitsVal (ds : List Char) : Nat :=
  ds.foldl (fun a c => 10 * a + (c.toNat - 48)) 0

/-- An optional single leading `+`/`-` sign, as `strtol`/`strtod` accept. -/
def strtolSign : List Char → Int × List Char
  | '+' :: r => (1, r)
  | '-' :: r => (-1, r)
  | cs => (1, cs)

/-- Base-10 `strtol`: leading whitespace, optional sign, digit run.
Returns the value and the rest of the input after the last consumed
character; `none` when no conversion is performed (empty digit run, in
which case C sets `endptr` back to the start of the input). -/
def strtol10 (cs : List Char) : Option (Int × List Char) :=
  let cs1 := skipWs cs
  let (sg, cs2) := strtolSign cs1
  let (ds, rest) := cs2.span (fun c => c.isDigit)
  if ds.isEmpty then none
  else some (sg * (digitsVal ds : Int), rest)

/-- `ParseIntOrDie` (health_kit_lib.cc:29): fatal when `strtol` performed no
conversion (`endptr == begin`) or left trailing characters
(`*endptr != '\0'`). -/
def ParseIntOrDie (s : String) : Option Int :=
  match strtol10 s.data with
  | none => none
  | some (v, rest) => if rest.isEmpty then some v else none

/-- Decimal `strtod`: leading whitespace, optional sign, digit run,
optional `.` plus digit run, optional exponent (`e`/`E`, optional sign,
digit run — consumed only when it has at least one digit). The value
`sign · (ip.fp) · 10^e` is held exactly, built with `mkRat` so that it is
computable by the kernel. Returns the value and the rest of the input
after the last consumed character; `none` when the mantissa holds no digit
at all. Hexadecimal, infinity and NaN forms of `strtod` are outside the
inputs this program feeds it and are not modelled. -/
def strtodQ (cs : List Char) : Option (ℚ × List Char) :=
  let cs1 := skipWs cs
  let (sg, cs2) := strtolSign cs1
  let (ip, cs3) := cs2.span Char.isDigit
  let (fp, cs4) :=
    match cs3 with
    | '.' :: r => r.span Char.isDigit
    | _ => ([], cs3)
  if ip.isEmpty && fp.isEmpty then none
  else
    let num : Int := sg * ((digitsVal ip * 10 ^ fp.length + digitsVal fp : Nat) : Int)
    let den : Nat := 10 ^ fp.length
    match cs4 with
    | c :: r =>
      if c = 'e' || c = 'E' then
        let (esg, r2) := strtolSign r
        let (eds, r3) := r2.span Char.isDigit
        if eds.isEmpty then some (mkRat num den, cs4)
        else
          let e : Int := esg * (digitsVal eds : Int)
          if 0 ≤ e then some (mkRat (num * ((10 ^ e.toNat : Nat) : Int)) den, r3)
          else some (mkRat num (den * 10 ^ (-e).toNat), r3)
      else some (mkRat num den, cs4)
    | [] => some (mkRat num den, [])

/-- `ParseDoubleOrDie` (health_kit_lib.cc:39): fatal when `strtod` performed
no conversion or left trailing characters. -/
def ParseDoubleOrDie (s : String) : Option ℚ :=
  match strtodQ s.data with
  | none => none
  | some (q, rest) => if rest.isEmpty then some q else none

/-- Proleptic-Gregorian leap year. -/
def isLeap (y : Int) : Bool :=
  (y % 4 = 0 && y % 100 ≠ 0) || y % 400 = 0

/-- Length of a civil month. -/
def daysInMonth (y : Int) (m : Nat) : Nat :=
  if m = 2 then (if isLeap y then 29 else 28)
  else if m = 4 || m = 6 || m = 9 || m = 11 then 30
  else 31

/-- Days from 1970-01-01 to the civil date `y-m-d` (the standard
era/year-of-era civil-calendar computation). -/
def daysFromCivil (y : Int) (m d : Nat) : Int :=
  let yAdj : Int := if m ≤ 2 then y - 1 else y
  let era : Int := Int.fdiv yAdj 400
  let yoe : Int := yAdj - era * 400
  let mp : Nat := (m + 9) % 12
  let doy : Nat := (153 * mp + 2) / 5 + d - 1
  let doe : Int := yoe * 365 + Int.fdiv yoe 4 - Int.fdiv yoe 100 + (doy : Int)
  era * 146097 + doe - 719468

/-- Exactly two decimal digits. -/
def read2 : List Char → Option (Nat × List Char)
  | a :: b :: r => if a.isDigit && b.isDigit then some (digitsVal [a, b], r) else none
  | _ => none

/-- One expected literal character. -/
def expectChar (c : Char) : List Char → Option (List Char)
  | x :: r => if x = c then some r else none
  | [] => none

/-- The `%Y-%m-%d` part of the pattern: greedy year digits, then literal
`-`, two-digit month, literal `-`, two-digit day. -/
def readYMD (cs : List Char) : Option (Int × Nat × Nat × List Char) :=
  let (yds, r1) := cs.span Char.isDigit
  if yds.isEmpty then none
  else
    match expectChar '-' r1 with
    | none => none
    | some r2 =>
      match read2 r2 with
      | none => none
      | some (mo, r3) =>
        match expectChar '-' r3 with
        | none => none
        | some r4 =>
          match read2 r4 with
          | none => none
          | some (dy, r5) => some ((digitsVal yds : Int), mo, dy, r5)

/-- The `%H:%M:%S` part of the pattern. -/
def readHMS (cs : List Char) : Option (Nat × Nat × Nat × List Char) :=
  match read2 cs with
  | none => none
  | some (hh, r1) =>
    match expectChar ':' r1 with
    | none => none
    | some r2 =>
      match read2 r2 with
      | none => none
      | some (mi, r3) =>
        match expectChar ':' r3 with
        | none => none
        | some r4 =>
          match read2 r4 with
          | none => none
          | some (ss, r5) => some (hh, mi, ss, r5)

/-- The `%z` part as the spec fixes it (`±HHMM`): the UTC offset, returned
in signed minute components `(sign, hours, minutes, rest)`. -/
def readTZ (cs : List Char) : Option (Int × Nat × Nat × List Char) :=
  match cs with
  | '+' :: r =>
    (match read2 r with
     | none => none
     | some (h, r1) =>
       match read2 r1 with
       | none => none
       | some (m, r2) => some (1, h, m, r2))
  | '-' :: r =>
    (match read2 r with
     | none => none
     | some (h, r1) =>
       match read2 r1 with
       | none => none
       | some (m, r2) => some (-1, h, m, r2))
  | _ => none

/-- `ParseDateOrDie` (health_kit_lib.cc:7): parses the fixed pattern
`%Y-%m-%d %H:%M:%S %z` (the spec fixes `%z` to `±HHMM`), fatal on any
deviation, and returns whole milliseconds since the Unix epoch (the
duration divided by 1 ms). Field ranges are validated; nothing may follow
the offset. -/
def ParseDateOrDie (s : String) : Option Int :=
  match readYMD s.data with
  | none => none
  | some (y, mo, dy, r5) =>
    match expectChar ' ' r5 with
    | none => none
    | some r6 =>
      match readHMS r6 with
      | none => none
      | some (hh, mi, ss, r11) =>
        match expectChar ' ' r11 with
        | none => none
        | some r12 =>
          match readTZ r12 with
          | none => none
          | some (tzSign, tzh, tzm, r15) =>
            if !r15.isEmpty then none
            else if mo < 1 || 12 < mo || dy < 1 || daysInMonth y mo < dy
                || 23 < hh || 59 < mi || 59 < ss || 59 < tzm then none
            else
              let days := daysFromCivil y mo dy
              let secs : Int := days * 86400 + (hh : Int) * 3600 + (mi : Int) * 60
                  + (ss : Int) - tzSign * ((tzh : Int) * 3600 + (tzm : Int) * 60)
              some (secs * 1000)

/-- Modelled from the spec: `phd::ToCamelCase` lives in the `phd` string
library, which is not among the sources provided (only its caller in
`health_kit_lib.cc:330` is). The spec (§6) fixes the output `source` field
to `"HealthKit:" + camelCase(sourceName)` and its example scenario 1 gives
`camelCase("iPhone") = "iPhone"`: camel-casing removes spaces, capitalizes
the letter that follows a space, and leaves every other character
(including the first) unchanged. -/
def camelAux : Bool → List Char → List Char
  | _, [] => []
  | up, c :: rest =>
    if c = ' ' then camelAux true rest
    else (if up then c.toUpper else c) :: camelAux false rest

/-- See `camelAux`. -/
def ToCamelCase (s : String) : String := ⟨camelAux false s.data⟩

/-- The six attributes extracted from a `Record` XML element
(health_kit_lib.h data members; default-constructed `std::string`s are
empty). -/
structure RecordAttributes where
  type_ : String := ""
  value_ : String := ""
  unit_ : String := ""
  sourceName_ : String := ""
  startDate_ : String := ""
  endDate_ : String := ""
deriving DecidableEq, Repr

/-- The series-level metadata `SetMeasurement` writes when the series is
newly created (`Series::set_name/set_family/set_unit`). -/
structure SeriesMeta where
  name : String
  family : String
  unit : String
deriving DecidableEq, Repr

/-- The fields `SetMeasurement` writes on the freshly appended
`Measurement` proto. -/
structure Measurement where
  ms_since_unix_epoch : Int
  value : Int
  group : String
  source : String
deriving DecidableEq, Repr

/-- The C++ `double` → `int64_t` conversion applied to each
`Consume…OrDie` value argument: truncation toward zero, which on an exact
rational `num/den` (positive `den`) is `num.tdiv den`. -/
def doubleToInt (q : ℚ) : Int := q.num.tdiv q.den

/-- The C++ `double` multiplication by an integer scale factor, written
with `mkRat` so that it is computable by the kernel; `mulNat_eq` proves it
is exactly `q * c` over ℚ. -/
def mulNat (q : ℚ) (c : Nat) : ℚ := mkRat (q.num * c) q.den

/-- `RecordAttributes::SetMeasurement` (health_kit_lib.cc:315): parses
`startDate_` for the timestamp, requires a non-empty `sourceName_`, and
produces the series metadata (applied by the caller only on a new series)
together with the measurement fields. -/
def SetMeasurement (r : RecordAttributes) (family name group unit : String)
    (value : Int) : Option (SeriesMeta × Measurement) :=
  match ParseDateOrDie r.startDate_ with
  | none => none
  | some ms =>
    if r.sourceName_.isEmpty then none
    else some (⟨name, family, unit⟩,
      ⟨ms, value, group, "HealthKit:" ++ ToCamelCase r.sourceName_⟩)

/-- `ConsumeCountOrDie` (health_kit_lib.cc:165). -/
def ConsumeCountOrDie (r : RecordAttributes) (family name group : String) :
    Option (SeriesMeta × Measurement) :=
  if r.unit_ = "count" then
    match ParseIntOrDie r.value_ with
    | none => none
    | some v => SetMeasurement r family name group "count" v
  else none

/-- `ConsumeBodyMassIndexOrDie` (health_kit_lib.cc:172). -/
def ConsumeBodyMassIndexOrDie (r : RecordAttributes) (family name group : String) :
    Option (SeriesMeta × Measurement) :=
  if r.unit_ = "count" then
    match ParseDoubleOrDie r.value_ with
    | none => none
    | some q => SetMeasurement r family name group "body_mass_index_millis"
        (doubleToInt (mulNat q 1000000))
  else none

/-- `ConsumePercentageOrDie` (health_kit_lib.cc:179). -/
def ConsumePercentageOrDie (r : RecordAttributes) (family name group : String) :
    Option (SeriesMeta × Measurement) :=
  if r.unit_ = "%" then
    match ParseDoubleOrDie r.value_ with
    | none => none
    | some q => SetMeasurement r family name group "percentage_millis"
        (doubleToInt (mulNat q 1000000))
  else none

/-- `ConsumeCountsPerMinuteOrDie` (health_kit_lib.cc:188). -/
def ConsumeCountsPerMinuteOrDie (r : RecordAttributes) (family name group : String) :
    Option (SeriesMeta × Measurement) :=
  if r.unit_ = "count/min" then
    match ParseDoubleOrDie r.value_ with
    | none => none
    | some q => SetMeasurement r family name group "beats_per_minute_millis"
        (doubleToInt (mulNat q 1000000))
  else none

/-- `ConsumeMillilitersPerKilogramMinuteOrDie` (health_kit_lib.cc:195). -/
def ConsumeMillilitersPerKilogramMinuteOrDie (r : RecordAttributes)
    (family name group : String) : Option (SeriesMeta × Measurement) :=
  if r.unit_ = "mL/min·kg" then
    match ParseDoubleOrDie r.value_ with
    | none => none
    | some q => SetMeasurement r family name group
        "milliliters_per_kilogram_per_minute_millis" (doubleToInt (mulNat q 1000000))
  else none

/-- `ConsumeKCalOrDie` (health_kit_lib.cc:203). -/
def ConsumeKCalOrDie (r : RecordAttributes) (family name group : String) :
    Option (SeriesMeta × Measurement) :=
  if r.unit_ = "kcal" then
    match ParseDoubleOrDie r.value_ with
    | none => none
    | some q => SetMeasurement r family name group "calories" (doubleToInt (mulNat q 1000))
  else none

/-- `ConsumeKilometersOrDie` (health_kit_lib.cc:210). -/
def ConsumeKilometersOrDie (r : RecordAttributes) (family name group : String) :
    Option (SeriesMeta × Measurement) :=
  if r.unit_ = "km" then
    match ParseDoubleOrDie r.value_ with
    | none => none
    | some q => SetMeasurement r family name group "millimeters"
        (doubleToInt (mulNat q 1000000))
  else none

/-- `ConsumeCentimetersOrDie` (health_kit_lib.cc:217). -/
def ConsumeCentimetersOrDie (r : RecordAttributes) (family name group : String) :
    Option (SeriesMeta × Measurement) :=
  if r.unit_ = "cm" then
    match ParseDoubleOrDie r.value_ with
    | none => none
    | some q => SetMeasurement r family name group "millimeters" (doubleToInt (mulNat q 10))
  else none

/-- `ConsumeMillilitersOrDie` (health_kit_lib.cc:224). -/
def ConsumeMillilitersOrDie (r : RecordAttributes) (family name group : String) :
    Option (SeriesMeta × Measurement) :=
  if r.unit_ = "mL" then
    match ParseIntOrDie r.value_ with
    | none => none
    | some v => SetMeasurement r family name group "milliliters" v
  else none

/-- `ConsumeKilogramsOrDie` (health_kit_lib.cc:231). -/
def ConsumeKilogramsOrDie (r : RecordAttributes) (family name group : String) :
    Option (SeriesMeta × Measurement) :=
  if r.unit_ = "kg" then
    match ParseDoubleOrDie r.value_ with
    | none => none
    | some q => SetMeasurement r family name group "milligrams"
        (doubleToInt (mulNat q 1000000))
  else none

/-- `ConsumeGramsOrDie` (health_kit_lib.cc:238). -/
def ConsumeGramsOrDie (r : RecordAttributes) (family name group : String) :
    Option (SeriesMeta × Measurement) :=
  if r.unit_ = "g" then
    match ParseDoubleOrDie r.value_ with
    | none => none
    | some q => SetMeasurement r family name group "milligrams" (doubleToInt (mulNat q 1000))
  else none

/-- `ConsumeMilligramsOrDie` (health_kit_lib.cc:245). -/
def ConsumeMilligramsOrDie (r : RecordAttributes) (family name group : String) :
    Option (SeriesMeta × Measurement) :=
  if r.unit_ = "mg" then
    match ParseDoubleOrDie r.value_ with
    | none => none
    | some q => SetMeasurement r family name group "milligrams" (doubleToInt q)
  else none

/-- `ConsumeMinutesOrDie` (health_kit_lib.cc:252). -/
def ConsumeMinutesOrDie (r : RecordAttributes) (family name group : String) :
    Option (SeriesMeta × Measurement) :=
  if r.unit_ = "min" then
    match ParseDoubleOrDie r.value_ with
    | none => none
    | some q => SetMeasurement r family name group "milliseconds"
        (doubleToInt (mulNat (mulNat q 60) 1000))
  else none

/-- `ConsumeMillisecondsOrDie` (health_kit_lib.cc:259). -/
def ConsumeMillisecondsOrDie (r : RecordAttributes) (family name group : String) :
    Option (SeriesMeta × Measurement) :=
  if r.unit_ = "ms" then
    match ParseDoubleOrDie r.value_ with
    | none => none
    | some q => SetMeasurement r family name group "milliseconds" (doubleToInt q)
  else none

/-- `ConsumeDurationOrDie` (health_kit_lib.cc:266): requires both `value_`
and `unit_` empty, then takes `endDate_ − startDate_` in milliseconds. -/
def ConsumeDurationOrDie (r : RecordAttributes) (family name group : String) :
    Option (SeriesMeta × Measurement) :=
  if r.value_.isEmpty && r.unit_.isEmpty then
    match ParseDateOrDie r.endDate_, ParseDateOrDie r.startDate_ with
    | some e, some s => SetMeasurement r family name group "milliseconds" (e - s)
    | _, _ => none
  else none

/-- The enumerated `value_` → destination-name mapping of
`ConsumeSleepAnalysisOrDie` (health_kit_lib.cc:279). -/
def sleepNameOf (v : String) : Option String :=
  if v = "HKCategoryValueSleepAnalysisAsleep" then some "SleepTime"
  else if v = "HKCategoryValueSleepAnalysisInBed" then some "InBedTime"
  else if v = "HKCategoryValueSleepAnalysisAwake" then some "AwakeTime"
  else none

/-- `ConsumeSleepAnalysisOrDie` (health_kit_lib.cc:275): unit must be
empty, the destination name comes from `sleepNameOf`, the value is the
duration `endDate_ − startDate_` in milliseconds; any other `value_`
string is fatal. -/
def ConsumeSleepAnalysisOrDie (r : RecordAttributes) (family group : String) :
    Option (SeriesMeta × Measurement) :=
  if r.unit_.isEmpty then
    match sleepNameOf r.value_ with
    | none => none
    | some name =>
      match ParseDateOrDie r.endDate_, ParseDateOrDie r.startDate_ with
      | some e, some s => SetMeasurement r family name group "milliseconds" (e - s)
      | _, _ => none
  else none

/-- The enumerated `value_` → destination-name mapping of
`ConsumeStandHourOrDie` (health_kit_lib.cc:298). -/
def standNameOf (v : String) : Option String :=
  if v = "HKCategoryValueAppleStandHourIdle" then some "IdleHours"
  else if v = "HKCategoryValueAppleStandHourStood" then some "StandHours"
  else none

/-- `ConsumeStandHourOrDie` (health_kit_lib.cc:294). -/
def ConsumeStandHourOrDie (r : RecordAttributes) (family group : String) :
    Option (SeriesMeta × Measurement) :=
  if r.unit_.isEmpty then
    match standNameOf r.value_ with
    | none => none
    | some name => SetMeasurement r family name group "count" 1
  else none

/-- `ConsumeCountableEventOrDie` (health_kit_lib.cc:309). -/
def ConsumeCountableEventOrDie (r : RecordAttributes) (family name group : String) :
    Option (SeriesMeta × Measurement) :=
  if r.unit_.isEmpty then SetMeasurement r family name group "count" 1
  else none

/-- `RecordAttributes::AddMeasurementToSeries` (health_kit_lib.cc:56): the
exhaustive dispatch on `type_`. The `group` argument of each
`Consume…OrDie` call is left to its default in the source; that default is
declared in the header (not among the sources provided) and, per the
spec's destination triples (§4.4, e.g.
`("BodyMeasurements","Weight","BodyMeasurements")`), equals `family`.
An unhandled `type_` is fatal. -/
def AddMeasurementToSeries (r : RecordAttributes) : Option (SeriesMeta × Measurement) :=
  if r.type_ = "HKQuantityTypeIdentifierDietaryWater" then
    ConsumeMillilitersOrDie r "Diet" "WaterConsumed" "Diet"
  else if r.type_ = "HKQuantityTypeIdentifierBodyMassIndex" then
    ConsumeBodyMassIndexOrDie r "BodyMeasurements" "BodyMassIndex" "BodyMeasurements"
  else if r.type_ = "HKQuantityTypeIdentifierHeight" then
    ConsumeCentimetersOrDie r "BodyMeasurements" "Height" "BodyMeasurements"
  else if r.type_ = "HKQuantityTypeIdentifierBodyMass" then
    ConsumeKilogramsOrDie r "BodyMeasurements" "Weight" "BodyMeasurements"
  else if r.type_ = "HKQuantityTypeIdentifierHeartRate" then
    ConsumeCountsPerMinuteOrDie r "BodyMeasurements" "HeartRate" "BodyMeasurements"
  else if r.type_ = "HKQuantityTypeIdentifierBodyFatPercentage" then
    ConsumePercentageOrDie r "BodyMeasurements" "BodyFatPercentage" "BodyMeasurements"
  else if r.type_ = "HKQuantityTypeIdentifierLeanBodyMass" then
    ConsumeKilogramsOrDie r "BodyMeasurements" "LeanBodyMass" "BodyMeasurements"
  else if r.type_ = "HKQuantityTypeIdentifierStepCount" then
    ConsumeCountOrDie r "Activity" "StepCount" "Activity"
  else if r.type_ = "HKQuantityTypeIdentifierDistanceWalkingRunning" then
    ConsumeKilometersOrDie r "Activity" "WalkingRunningDistance" "Activity"
  else if r.type_ = "HKQuantityTypeIdentifierBasalEnergyBurned" then
    ConsumeKCalOrDie r "Activity" "RestingEnergy" "Activity"
  else if r.type_ = "HKQuantityTypeIdentifierActiveEnergyBurned" then
    ConsumeKCalOrDie r "Activity" "ActiveEnergy" "Activity"
  else if r.type_ = "HKQuantityTypeIdentifierFlightsClimbed" then
    ConsumeCountOrDie r "Activity" "FlightClimbed" "Activity"
  else if r.type_ = "HKQuantityTypeIdentifierDietaryFatTotal" then
    ConsumeGramsOrDie r "Diet" "TotalFatConsumed" "Diet"
  else if r.type_ = "HKQuantityTypeIdentifierDietaryFatSaturated" then
    ConsumeGramsOrDie r "Diet" "SaturatedFatConsumed" "Diet"
  else if r.type_ = "HKQuantityTypeIdentifierDietaryCholesterol" then
    ConsumeMilligramsOrDie r "Diet" "CholesterolConsumed" "Diet"
  else if r.type_ = "HKQuantityTypeIdentifierDietarySodium" then
    ConsumeMilligramsOrDie r "Diet" "SodiumConsumed" "Diet"
  else if r.type_ = "HKQuantityTypeIdentifierDietaryCarbohydrates" then
    ConsumeGramsOrDie r "Diet" "CarbohydratesConsumed" "Diet"
  else if r.type_ = "HKQuantityTypeIdentifierDietaryFiber" then
    ConsumeGramsOrDie r "Diet" "FiberConsumed" "Diet"
  else if r.type_ = "HKQuantityTypeIdentifierAppleExerciseTime" then
    ConsumeMinutesOrDie r "TimeTracking" "ExerciseTime" "TimeTracking"
  else if r.type_ = "HKQuantityTypeIdentifierDietaryCaffeine" then
    ConsumeMilligramsOrDie r "Diet" "CaffeineConsumed" "Diet"
  else if r.type_ = "HKQuantityTypeIdentifierDistanceCycling" then
    ConsumeKilometersOrDie r "Activity" "DistanceCycling" "Activity"
  else if r.type_ = "HKQuantityTypeIdentifierRestingHeartRate" then
    ConsumeCountsPerMinuteOrDie r "BodyMeasurements" "RestingHeartRate" "BodyMeasurements"
  else if r.type_ = "HKQuantityTypeIdentifierVO2Max" then
    ConsumeMillilitersPerKilogramMinuteOrDie r "BodyMeasurements" "VO2Max" "BodyMeasurements"
  else if r.type_ = "HKQuantityTypeIdentifierWalkingHeartRateAverage" then
    ConsumeCountsPerMinuteOrDie r "BodyMeasurements" "WalkingHeartRateAvg" "BodyMeasurements"
  else if r.type_ = "HKCategoryTypeIdentifierSleepAnalysis" then
    ConsumeSleepAnalysisOrDie r "Activity" "Activity"
  else if r.type_ = "HKCategoryTypeIdentifierAppleStandHour" then
    ConsumeStandHourOrDie r "Activity" "Activity"
  else if r.type_ = "HKCategoryTypeIdentifierSexualActivity" then
    ConsumeCountableEventOrDie r "Activity" "SexualActivityCount" "Activity"
  else if r.type_ = "HKCategoryTypeIdentifierMindfulSession" then
    ConsumeDurationOrDie r "TimeTracking" "MindfulnessTime" "TimeTracking"
  else if r.type_ = "HKQuantityTypeIdentifierHeartRateVariabilitySDNN" then
    ConsumeMillisecondsOrDie r "BodyMeasurements" "HeartRateVariability" "BodyMeasurements"
  else if r.type_ = "HKQuantityTypeIdentifierDietarySugar" then
    ConsumeGramsOrDie r "Diet" "SugarConsumed" "Diet"
  else if r.type_ = "HKQuantityTypeIdentifierDietaryEnergyConsumed" then
    ConsumeKCalOrDie r "Diet" "CaloriesConsumed" "Diet"
  else if r.type_ = "HKQuantityTypeIdentifierDietaryProtein" then
    ConsumeGramsOrDie r "Diet" "ProteinConsumed" "Diet"
  else if r.type_ = "HKQuantityTypeIdentifierDietaryPotassium" then
    ConsumeMilligramsOrDie r "Diet" "PotassiumConsumed" "Diet"
  else none

/-- `TryConsumeAttribute` (health_kit_lib.cc:18) threaded through the
short-circuit chain of `CreateFromXmlRecord` (health_kit_lib.cc:141): the
six recognized names are tried in order; a match whose target field is
already non-empty trips `CHECK(attribute_value->empty())` (fatal); an
unrecognized name consumes nothing. Returns whether the attribute was
consumed, with the updated record. -/
def consumeOneAttr (attr : String × String) (r : RecordAttributes) :
    Option (Bool × RecordAttributes) :=
  if attr.1 = "type" then
    (if r.type_.isEmpty then some (true, { r with type_ := attr.2 }) else none)
  else if attr.1 = "unit" then
    (if r.unit_.isEmpty then some (true, { r with unit_ := attr.2 }) else none)
  else if attr.1 = "value" then
    (if r.value_.isEmpty then some (true, { r with value_ := attr.2 }) else none)
  else if attr.1 = "sourceName" then
    (if r.sourceName_.isEmpty then some (true, { r with sourceName_ := attr.2 }) else none)
  else if attr.1 = "startDate" then
    (if r.startDate_.isEmpty then some (true, { r with startDate_ := attr.2 }) else none)
  else if attr.1 = "endDate" then
    (if r.endDate_.isEmpty then some (true, { r with endDate_ := attr.2 }) else none)
  else some (false, r)

/-- The attribute loop of `CreateFromXmlRecord` (health_kit_lib.cc:139):
threads the record and the consumed-attribute count over the list and
returns as soon as the count reaches 6 (the early `return attributes`). -/
def scanAttrs : List (String × String) → RecordAttributes → Nat →
    Option (RecordAttributes × Nat)
  | [], r, c => some (r, c)
  | a :: rest, r, c =>
    match consumeOneAttr a r with
    | none => none
    | some (b, r1) =>
      let c1 := if b then c + 1 else c
      if c1 = 6 then some (r1, 6) else scanAttrs rest r1 c1

/-- `RecordAttributes::CreateFromXmlRecord` (health_kit_lib.cc:134): after
the scan, a count of 6 — or of 5 with `unit_` empty, or of 4 with `unit_`
and `value_` both empty — is accepted; any other outcome is fatal. -/
def CreateFromXmlRecord (attrs : List (String × String)) : Option RecordAttributes :=
  match scanAttrs attrs {} 0 with
  | none => none
  | some (r, c) =>
    if c = 6 then some r
    else if c = 5 ∧ r.unit_.isEmpty then some r
    else if c = 4 ∧ r.unit_.isEmpty ∧ r.value_.isEmpty then some r
    else none

/-- A `Series` proto: the metadata written once at creation plus the
ordered measurements appended to it. -/
structure Series where
  name : String := ""
  family : String := ""
  unit : String := ""
  measurements : List Measurement := []
deriving DecidableEq, Repr

/-- The state `ProcessHealthKitXmlExport` (health_kit_lib.cc:334) threads
over the record loop: the output `SeriesCollection` (the series in
creation order) and the `type_to_series_map` registry, modelled as an
association list from record type to index into that series list. -/
structure PipelineState where
  seriesList : List Series := []
  typeIndex : List (String × Nat) := []
deriving DecidableEq, Repr

/-- Registry lookup (the read side of `FindOrAdd`,
health_kit_lib.cc:373). -/
def lookupType : List (String × Nat) → String → Option Nat
  | [], _ => none
  | (k, v) :: rest, t => if k = t then some v else lookupType rest t

/-- One iteration of the `Record` loop of `ProcessHealthKitXmlExport`
(health_kit_lib.cc:362): resolve the series for the record's type —
creating and registering a fresh one when absent, which is exactly when
the newly-created flag is set — then add the record's measurement,
stamping the series metadata exactly when the series is new
(`SetMeasurement`, health_kit_lib.cc:318). -/
def processRecord (st : PipelineState) (r : RecordAttributes) :
    Option PipelineState :=
  match AddMeasurementToSeries r with
  | none => none
  | some (meta, m) =>
    match lookupType st.typeIndex r.type_ with
    | none =>
      some ⟨st.seriesList ++ [⟨meta.name, meta.family, meta.unit, [m]⟩],
            st.typeIndex ++ [(r.type_, st.seriesList.length)]⟩
    | some i =>
      match st.seriesList.get? i with
      | none => none
      | some s =>
        some ⟨st.seriesList.set i { s with measurements := s.measurements ++ [m] },
              st.typeIndex⟩

/-- The `Record` loop over a whole list of record elements. -/
def processRecords : PipelineState → List RecordAttributes → Option PipelineState
  | st, [] => some st
  | st, r :: rest =>
    match processRecord st r with
    | none => none
    | some st1 => processRecords st1 rest

/-- The closed set of record types handled by the dispatch chain of
`AddMeasurementToSeries` (health_kit_lib.cc:63-128), in source order. -/
def knownTypes : List String :=
  ["HKQuantityTypeIdentifierDietaryWater",
   "HKQuantityTypeIdentifierBodyMassIndex",
   "HKQuantityTypeIdentifierHeight",
   "HKQuantityTypeIdentifierBodyMass",
   "HKQuantityTypeIdentifierHeartRate",
   "HKQuantityTypeIdentifierBodyFatPercentage",
   "HKQuantityTypeIdentifierLeanBodyMass",
   "HKQuantityTypeIdentifierStepCount",
   "HKQuantityTypeIdentifierDistanceWalkingRunning",
   "HKQuantityTypeIdentifierBasalEnergyBurned",
   "HKQuantityTypeIdentifierActiveEnergyBurned",
   "HKQuantityTypeIdentifierFlightsClimbed",
   "HKQuantityTypeIdentifierDietaryFatTotal",
   "HKQuantityTypeIdentifierDietaryFatSaturated",
   "HKQuantityTypeIdentifierDietaryCholesterol",
   "HKQuantityTypeIdentifierDietarySodium",
   "HKQuantityTypeIdentifierDietaryCarbohydrates",
   "HKQuantityTypeIdentifierDietaryFiber",
   "HKQuantityTypeIdentifierAppleExerciseTime",
   "HKQuantityTypeIdentifierDietaryCaffeine",
   "HKQuantityTypeIdentifierDistanceCycling",
   "HKQuantityTypeIdentifierRestingHeartRate",
   "HKQuantityTypeIdentifierVO2Max",
   "HKQuantityTypeIdentifierWalkingHeartRateAverage",
   "HKCategoryTypeIdentifierSleepAnalysis",
   "HKCategoryTypeIdentifierAppleStandHour",
   "HKCategoryTypeIdentifierSexualActivity",
   "HKCategoryTypeIdentifierMindfulSession",
   "HKQuantityTypeIdentifierHeartRateVariabilitySDNN",
   "HKQuantityTypeIdentifierDietarySugar",
   "HKQuantityTypeIdentifierDietaryEnergyConsumed",
   "HKQuantityTypeIdentifierDietaryProtein",
   "HKQuantityTypeIdentifierDietaryPotassium"]

/-- The raw unit each rule requires: the unit `CHECK`ed (or tested) first
thing by the `Consume…OrDie` the dispatch selects; `""` for the category
rules, which require an empty unit. `none` for unknown types. -/
def expectedUnit (t : String) : Option String :=
  if t = "HKQuantityTypeIdentifierDietaryWater" then some "mL"
  else if t = "HKQuantityTypeIdentifierBodyMassIndex" then some "count"
  else if t = "HKQuantityTypeIdentifierHeight" then some "cm"
  else if t = "HKQuantityTypeIdentifierBodyMass" then some "kg"
  else if t = "HKQuantityTypeIdentifierHeartRate" then some "count/min"
  else if t = "HKQuantityTypeIdentifierBodyFatPercentage" then some "%"
  else if t = "HKQuantityTypeIdentifierLeanBodyMass" then some "kg"
  else if t = "HKQuantityTypeIdentifierStepCount" then some "count"
  else if t = "HKQuantityTypeIdentifierDistanceWalkingRunning" then some "km"
  else if t = "HKQuantityTypeIdentifierBasalEnergyBurned" then some "kcal"
  else if t = "HKQuantityTypeIdentifierActiveEnergyBurned" then some "kcal"
  else if t = "HKQuantityTypeIdentifierFlightsClimbed" then some "count"
  else if t = "HKQuantityTypeIdentifierDietaryFatTotal" then some "g"
  else if t = "HKQuantityTypeIdentifierDietaryFatSaturated" then some "g"
  else if t = "HKQuantityTypeIdentifierDietaryCholesterol" then some "mg"
  else if t = "HKQuantityTypeIdentifierDietarySodium" then some "mg"
  else if t = "HKQuantityTypeIdentifierDietaryCarbohydrates" then some "g"
  else if t = "HKQuantityTypeIdentifierDietaryFiber" then some "g"
  else if t = "HKQuantityTypeIdentifierAppleExerciseTime" then some "min"
  else if t = "HKQuantityTypeIdentifierDietaryCaffeine" then some "mg"
  else if t = "HKQuantityTypeIdentifierDistanceCycling" then some "km"
  else if t = "HKQuantityTypeIdentifierRestingHeartRate" then some "count/min"
  else if t = "HKQuantityTypeIdentifierVO2Max" then some "mL/min·kg"
  else if t = "HKQuantityTypeIdentifierWalkingHeartRateAverage" then some "count/min"
  else if t = "HKCategoryTypeIdentifierSleepAnalysis" then some ""
  else if t = "HKCategoryTypeIdentifierAppleStandHour" then some ""
  else if t = "HKCategoryTypeIdentifierSexualActivity" then some ""
  else if t = "HKCategoryTypeIdentifierMindfulSession" then some ""
  else if t = "HKQuantityTypeIdentifierHeartRateVariabilitySDNN" then some "ms"
  else if t = "HKQuantityTypeIdentifierDietarySugar" then some "g"
  else if t = "HKQuantityTypeIdentifierDietaryEnergyConsumed" then some "kcal"
  else if t = "HKQuantityTypeIdentifierDietaryProtein" then some "g"
  else if t = "HKQuantityTypeIdentifierDietaryPotassium" then some "mg"
  else none

/-- The destination family of each known type — per the dispatch also the
measurement group, since every call leaves `group` at its default
`family`. `none` for unknown types. -/
def familyOf (t : String) : Option String :=
  if t = "HKQuantityTypeIdentifierDietaryWater" then some "Diet"
  else if t = "HKQuantityTypeIdentifierBodyMassIndex" then some "BodyMeasurements"
  else if t = "HKQuantityTypeIdentifierHeight" then some "BodyMeasurements"
  else if t = "HKQuantityTypeIdentifierBodyMass" then some "BodyMeasurements"
  else if t = "HKQuantityTypeIdentifierHeartRate" then some "BodyMeasurements"
  else if t = "HKQuantityTypeIdentifierBodyFatPercentage" then some "BodyMeasurements"
  else if t = "HKQuantityTypeIdentifierLeanBodyMass" then some "BodyMeasurements"
  else if t = "HKQuantityTypeIdentifierStepCount" then some "Activity"
  else if t = "HKQuantityTypeIdentifierDistanceWalkingRunning" then some "Activity"
  else if t = "HKQuantityTypeIdentifierBasalEnergyBurned" then some "Activity"
  else if t = "HKQuantityTypeIdentifierActiveEnergyBurned" then some "Activity"
  else if t = "HKQuantityTypeIdentifierFlightsClimbed" then some "Activity"
  else if t = "HKQuantityTypeIdentifierDietaryFatTotal" then some "Diet"
  else if t = "HKQuantityTypeIdentifierDietaryFatSaturated" then some "Diet"
  else if t = "HKQuantityTypeIdentifierDietaryCholesterol" then some "Diet"
  else if t = "HKQuantityTypeIdentifierDietarySodium" then some "Diet"
  else if t = "HKQuantityTypeIdentifierDietaryCarbohydrates" then some "Diet"
  else if t = "HKQuantityTypeIdentifierDietaryFiber" then some "Diet"
  else if t = "HKQuantityTypeIdentifierAppleExerciseTime" then some "TimeTracking"
  else if t = "HKQuantityTypeIdentifierDietaryCaffeine" then some "Diet"
  else if t = "HKQuantityTypeIdentifierDistanceCycling" then some "Activity"
  else if t = "HKQuantityTypeIdentifierRestingHeartRate" then some "BodyMeasurements"
  else if t = "HKQuantityTypeIdentifierVO2Max" then some "BodyMeasurements"
  else if t = "HKQuantityTypeIdentifierWalkingHeartRateAverage" then some "BodyMeasurements"
  else if t = "HKCategoryTypeIdentifierSleepAnalysis" then some "Activity"
  else if t = "HKCategoryTypeIdentifierAppleStandHour" then some "Activity"
  else if t = "HKCategoryTypeIdentifierSexualActivity" then some "Activity"
  else if t = "HKCategoryTypeIdentifierMindfulSession" then some "TimeTracking"
  else if t = "HKQuantityTypeIdentifierHeartRateVariabilitySDNN" then some "BodyMeasurements"
  else if t = "HKQuantityTypeIdentifierDietarySugar" then some "Diet"
  else if t = "HKQuantityTypeIdentifierDietaryEnergyConsumed" then some "Diet"
  else if t = "HKQuantityTypeIdentifierDietaryProtein" then some "Diet"
  else if t = "HKQuantityTypeIdentifierDietaryPotassium" then some "Diet"
  else none

/-- The destination name of each known type whose name is a function of
the type alone; `none` for the two category types (sleep analysis and
stand hours) whose name is selected from the record's `value_`, and for
unknown types. -/
def nameOf (t : String) : Option String :=
  if t = "HKQuantityTypeIdentifierDietaryWater" then some "WaterConsumed"
  else if t = "HKQuantityTypeIdentifierBodyMassIndex" then some "BodyMassIndex"
  else if t = "HKQuantityTypeIdentifierHeight" then some "Height"
  else if t = "HKQuantityTypeIdentifierBodyMass" then some "Weight"
  else if t = "HKQuantityTypeIdentifierHeartRate" then some "HeartRate"
  else if t = "HKQuantityTypeIdentifierBodyFatPercentage" then some "BodyFatPercentage"
  else if t = "HKQuantityTypeIdentifierLeanBodyMass" then some "LeanBodyMass"
  else if t = "HKQuantityTypeIdentifierStepCount" then some "StepCount"
  else if t = "HKQuantityTypeIdentifierDistanceWalkingRunning" then some "WalkingRunningDistance"
  else if t = "HKQuantityTypeIdentifierBasalEnergyBurned" then some "RestingEnergy"
  else if t = "HKQuantityTypeIdentifierActiveEnergyBurned" then some "ActiveEnergy"
  else if t = "HKQuantityTypeIdentifierFlightsClimbed" then some "FlightClimbed"
  else if t = "HKQuantityTypeIdentifierDietaryFatTotal" then some "TotalFatConsumed"
  else if t = "HKQuantityTypeIdentifierDietaryFatSaturated" then some "SaturatedFatConsumed"
  else if t = "HKQuantityTypeIdentifierDietaryCholesterol" then some "CholesterolConsumed"
  else if t = "HKQuantityTypeIdentifierDietarySodium" then some "SodiumConsumed"
  else if t = "HKQuantityTypeIdentifierDietaryCarbohydrates" then some "CarbohydratesConsumed"
  else if t = "HKQuantityTypeIdentifierDietaryFiber" then some "FiberConsumed"
  else if t = "HKQuantityTypeIdentifierAppleExerciseTime" then some "ExerciseTime"
  else if t = "HKQuantityTypeIdentifierDietaryCaffeine" then some "CaffeineConsumed"
  else if t = "HKQuantityTypeIdentifierDistanceCycling" then some "DistanceCycling"
  else if t = "HKQuantityTypeIdentifierRestingHeartRate" then some "RestingHeartRate"
  else if t = "HKQuantityTypeIdentifierVO2Max" then some "VO2Max"
  else if t = "HKQuantityTypeIdentifierWalkingHeartRateAverage" then some "WalkingHeartRateAvg"
  else if t = "HKCategoryTypeIdentifierSleepAnalysis" then none
  else if t = "HKCategoryTypeIdentifierAppleStandHour" then none
  else if t = "HKCategoryTypeIdentifierSexualActivity" then some "SexualActivityCount"
  else if t = "HKCategoryTypeIdentifierMindfulSession" then some "MindfulnessTime"
  else if t = "HKQuantityTypeIdentifierHeartRateVariabilitySDNN" then some "HeartRateVariability"
  else if t = "HKQuantityTypeIdentifierDietarySugar" then some "SugarConsumed"
  else if t = "HKQuantityTypeIdentifierDietaryEnergyConsumed" then some "CaloriesConsumed"
  else if t = "HKQuantityTypeIdentifierDietaryProtein" then some "ProteinConsumed"
  else if t = "HKQuantityTypeIdentifierDietaryPotassium" then some "PotassiumConsumed"
  else none

/-- The multiplicative scale factor of each rule that parses its value as
a double and multiplies it by a constant (scale 1 for the `mg`/`ms` rules,
which apply the cast with no multiplication; the minutes rule's two
multiplications `× 60 × 1000` amount to 60000). The integer-parsing rules
(`count`, `mL`) and the derivation rules carry no scale: `none`. -/
def scaleOf (t : String) : Option Nat :=
  if t = "HKQuantityTypeIdentifierBodyMassIndex" then some 1000000
  else if t = "HKQuantityTypeIdentifierHeight" then some 10
  else if t = "HKQuantityTypeIdentifierBodyMass" then some 1000000
  else if t = "HKQuantityTypeIdentifierHeartRate" then some 1000000
  else if t = "HKQuantityTypeIdentifierBodyFatPercentage" then some 1000000
  else if t = "HKQuantityTypeIdentifierLeanBodyMass" then some 1000000
  else if t = "HKQuantityTypeIdentifierDistanceWalkingRunning" then some 1000000
  else if t = "HKQuantityTypeIdentifierBasalEnergyBurned" then some 1000
  else if t = "HKQuantityTypeIdentifierActiveEnergyBurned" then some 1000
  else if t = "HKQuantityTypeIdentifierDietaryFatTotal" then some 1000
  else if t = "HKQuantityTypeIdentifierDietaryFatSaturated" then some 1000
  else if t = "HKQuantityTypeIdentifierDietaryCholesterol" then some 1
  else if t = "HKQuantityTypeIdentifierDietarySodium" then some 1
  else if t = "HKQuantityTypeIdentifierDietaryCarbohydrates" then some 1000
  else if t = "HKQuantityTypeIdentifierDietaryFiber" then some 1000
  else if t = "HKQuantityTypeIdentifierAppleExerciseTime" then some 60000
  else if t = "HKQuantityTypeIdentifierDietaryCaffeine" then some 1
  else if t = "HKQuantityTypeIdentifierDistanceCycling" then some 1000000
  else if t = "HKQuantityTypeIdentifierRestingHeartRate" then some 1000000
  else if t = "HKQuantityTypeIdentifierVO2Max" then some 1000000
  else if t = "HKQuantityTypeIdentifierWalkingHeartRateAverage" then some 1000000
  else if t = "HKQuantityTypeIdentifierHeartRateVariabilitySDNN" then some 1
  else if t = "HKQuantityTypeIdentifierDietarySugar" then some 1000
  else if t = "HKQuantityTypeIdentifierDietaryEnergyConsumed" then some 1000
  else if t = "HKQuantityTypeIdentifierDietaryProtein" then some 1000
  else if t = "HKQuantityTypeIdentifierDietaryPotassium" then some 1
  else none


/-- `mulNat` is exactly multiplication by the (integer) scale factor over
ℚ: the scaled value the C++ `double` arithmetic aims at. -/
theorem mulNat_eq (q : ℚ) (c : Nat) : mulNat q c = q * c := by
  have h := Rat.mkRat_mul_mkRat q.num (c : Int) q.den 1
  rw [Rat.mkRat_self, Rat.mkRat_one, mul_one] at h
  unfold mulNat
  rw [← h]
  norm_cast

/-- Truncation toward zero is the identity on integral rationals. -/
theorem doubleToInt_intCast (z : Int) : doubleToInt (z : ℚ) = z := by
  simp [doubleToInt]

/-- Inversion for `SetMeasurement`: what a successful call pins down. -/
theorem SetMeasurement_dest {r : RecordAttributes} {family name group unit : String}
    {v : Int} {p : SeriesMeta × Measurement}
    (h : SetMeasurement r family name group unit v = some p) :
    p.1 = ⟨name, family, unit⟩ ∧ p.2.group = group ∧ p.2.value = v ∧
    p.2.source = "HealthKit:" ++ ToCamelCase r.sourceName_ ∧
    r.sourceName_.isEmpty = false ∧
    ParseDateOrDie r.startDate_ = some p.2.ms_since_unix_epoch := by
  unfold SetMeasurement at h
  split at h
  · exact Option.noConfusion h
  next ms hms =>
    split at h
    · exact Option.noConfusion h
    next hs =>
      cases h
      exact ⟨rfl, rfl, rfl, rfl, Bool.not_eq_true _ ▸ hs, hms⟩

/-- Destination inversion for `ConsumeCountOrDie`. -/
theorem ConsumeCountOrDie_dest {r : RecordAttributes} {f n g : String}
    {p : SeriesMeta × Measurement} (h : ConsumeCountOrDie r f n g = some p) :
    p.1.name = n ∧ p.1.family = f ∧ p.2.group = g := by
  unfold ConsumeCountOrDie at h
  split at h
  · split at h
    next => exact Option.noConfusion h
    next v hv =>
      obtain ⟨h1, h2, -⟩ := SetMeasurement_dest h
      exact ⟨by rw [h1], by rw [h1], h2⟩
  · exact Option.noConfusion h

/-- Destination inversion for `ConsumeMillilitersOrDie`. -/
theorem ConsumeMillilitersOrDie_dest {r : RecordAttributes} {f n g : String}
    {p : SeriesMeta × Measurement} (h : ConsumeMillilitersOrDie r f n g = some p) :
    p.1.name = n ∧ p.1.family = f ∧ p.2.group = g := by
  unfold ConsumeMillilitersOrDie at h
  split at h
  · split at h
    next => exact Option.noConfusion h
    next v hv =>
      obtain ⟨h1, h2, -⟩ := SetMeasurement_dest h
      exact ⟨by rw [h1], by rw [h1], h2⟩
  · exact Option.noConfusion h

/-- Destination inversion for `ConsumeBodyMassIndexOrDie`. -/
theorem ConsumeBodyMassIndexOrDie_dest {r : RecordAttributes} {f n g : String}
    {p : SeriesMeta × Measurement} (h : ConsumeBodyMassIndexOrDie r f n g = some p) :
    p.1.name = n ∧ p.1.family = f ∧ p.2.group = g := by
  unfold ConsumeBodyMassIndexOrDie at h
  split at h
  · split at h
    next => exact Option.noConfusion h
    next v hv =>
      obtain ⟨h1, h2, -⟩ := SetMeasurement_dest h
      exact ⟨by rw [h1], by rw [h1], h2⟩
  · exact Option.noConfusion h

/-- Destination inversion for `ConsumePercentageOrDie`. -/
theorem ConsumePercentageOrDie_dest {r : RecordAttributes} {f n g : String}
    {p : SeriesMeta × Measurement} (h : ConsumePercentageOrDie r f n g = some p) :
    p.1.name = n ∧ p.1.family = f ∧ p.2.group = g := by
  unfold ConsumePercentageOrDie at h
  split at h
  · split at h
    next => exact Option.noConfusion h
    next v hv =>
      obtain ⟨h1, h2, -⟩ := SetMeasurement_dest h
      exact ⟨by rw [h1], by rw [h1], h2⟩
  · exact Option.noConfusion h

/-- Destination inversion for `ConsumeCountsPerMinuteOrDie`. -/
theorem ConsumeCountsPerMinuteOrDie_dest {r : RecordAttributes} {f n g : String}
    {p : SeriesMeta × Measurement} (h : ConsumeCountsPerMinuteOrDie r f n g = some p) :
    p.1.name = n ∧ p.1.family = f ∧ p.2.group = g := by
  unfold ConsumeCountsPerMinuteOrDie at h
  split at h
  · split at h
    next => exact Option.noConfusion h
    next v hv =>
      obtain ⟨h1, h2, -⟩ := SetMeasurement_dest h
      exact ⟨by rw [h1], by rw [h1], h2⟩
  · exact Option.noConfusion h

/-- Destination inversion for `ConsumeMillilitersPerKilogramMinuteOrDie`. -/
theorem ConsumeMillilitersPerKilogramMinuteOrDie_dest {r : RecordAttributes} {f n g : String}
    {p : SeriesMeta × Measurement} (h : ConsumeMillilitersPerKilogramMinuteOrDie r f n g = some p) :
    p.1.name = n ∧ p.1.family = f ∧ p.2.group = g := by
  unfold ConsumeMillilitersPerKilogramMinuteOrDie at h
  split at h
  · split at h
    next => exact Option.noConfusion h
    next v hv =>
      obtain ⟨h1, h2, -⟩ := SetMeasurement_dest h
      exact ⟨by rw [h1], by rw [h1], h2⟩
  · exact Option.noConfusion h

/-- Destination inversion for `ConsumeKCalOrDie`. -/
theorem ConsumeKCalOrDie_dest {r : RecordAttributes} {f n g : String}
    {p : SeriesMeta × Measurement} (h : ConsumeKCalOrDie r f n g = some p) :
    p.1.name = n ∧ p.1.family = f ∧ p.2.group = g := by
  unfold ConsumeKCalOrDie at h
  split at h
  · split at h
    next => exact Option.noConfusion h
    next v hv =>
      obtain ⟨h1, h2, -⟩ := SetMeasurement_dest h
      exact ⟨by rw [h1], by rw [h1], h2⟩
  · exact Option.noConfusion h

/-- Destination inversion for `ConsumeKilometersOrDie`. -/
theorem ConsumeKilometersOrDie_dest {r : RecordAttributes} {f n g : String}
    {p : SeriesMeta × Measurement} (h : ConsumeKilometersOrDie r f n g = some p) :
    p.1.name = n ∧ p.1.family = f ∧ p.2.group = g := by
  unfold ConsumeKilometersOrDie at h
  split at h
  · split at h
    next => exact Option.noConfusion h
    next v hv =>
      obtain ⟨h1, h2, -⟩ := SetMeasurement_dest h
      exact ⟨by rw [h1], by rw [h1], h2⟩
  · exact Option.noConfusion h

/-- Destination inversion for `ConsumeCentimetersOrDie`. -/
theorem ConsumeCentimetersOrDie_dest {r : RecordAttributes} {f n g : String}
    {p : SeriesMeta × Measurement} (h : ConsumeCentimetersOrDie r f n g = some p) :
    p.1.name = n ∧ p.1.family = f ∧ p.2.group = g := by
  unfold ConsumeCentimetersOrDie at h
  split at h
  · split at h
    next => exact Option.noConfusion h
    next v hv =>
      obtain ⟨h1, h2, -⟩ := SetMeasurement_dest h
      exact ⟨by rw [h1], by rw [h1], h2⟩
  · exact Option.noConfusion h

/-- Destination inversion for `ConsumeKilogramsOrDie`. -/
theorem ConsumeKilogramsOrDie_dest {r : RecordAttributes} {f n g : String}
    {p : SeriesMeta × Measurement} (h : ConsumeKilogramsOrDie r f n g = some p) :
    p.1.name = n ∧ p.1.family = f ∧ p.2.group = g := by
  unfold ConsumeKilogramsOrDie at h
  split at h
  · split at h
    next => exact Option.noConfusion h
    next v hv =>
      obtain ⟨h1, h2, -⟩ := SetMeasurement_dest h
      exact ⟨by rw [h1], by rw [h1], h2⟩
  · exact Option.noConfusion h

/-- Destination inversion for `ConsumeGramsOrDie`. -/
theorem ConsumeGramsOrDie_dest {r : RecordAttributes} {f n g : String}
    {p : SeriesMeta × Measurement} (h : ConsumeGramsOrDie r f n g = some p) :
    p.1.name = n ∧ p.1.family = f ∧ p.2.group = g := by
  unfold ConsumeGramsOrDie at h
  split at h
  · split at h
    next => exact Option.noConfusion h
    next v hv =>
      obtain ⟨h1, h2, -⟩ := SetMeasurement_dest h
      exact ⟨by rw [h1], by rw [h1], h2⟩
  · exact Option.noConfusion h

/-- Destination inversion for `ConsumeMilligramsOrDie`. -/
theorem ConsumeMilligramsOrDie_dest {r : RecordAttributes} {f n g : String}
    {p : SeriesMeta × Measurement} (h : ConsumeMilligramsOrDie r f n g = some p) :
    p.1.name = n ∧ p.1.family = f ∧ p.2.group = g := by
  unfold ConsumeMilligramsOrDie at h
  split at h
  · split at h
    next => exact Option.noConfusion h
    next v hv =>
      obtain ⟨h1, h2, -⟩ := SetMeasurement_dest h
      exact ⟨by rw [h1], by rw [h1], h2⟩
  · exact Option.noConfusion h

/-- Destination inversion for `ConsumeMinutesOrDie`. -/
theorem ConsumeMinutesOrDie_dest {r : RecordAttributes} {f n g : String}
    {p : SeriesMeta × Measurement} (h : ConsumeMinutesOrDie r f n g = some p) :
    p.1.name = n ∧ p.1.family = f ∧ p.2.group = g := by
  unfold ConsumeMinutesOrDie at h
  split at h
  · split at h
    next => exact Option.noConfusion h
    next v hv =>
      obtain ⟨h1, h2, -⟩ := SetMeasurement_dest h
      exact ⟨by rw [h1], by rw [h1], h2⟩
  · exact Option.noConfusion h

/-- Destination inversion for `ConsumeMillisecondsOrDie`. -/
theorem ConsumeMillisecondsOrDie_dest {r : RecordAttributes} {f n g : String}
    {p : SeriesMeta × Measurement} (h : ConsumeMillisecondsOrDie r f n g = some p) :
    p.1.name = n ∧ p.1.family = f ∧ p.2.group = g := by
  unfold ConsumeMillisecondsOrDie at h
  split at h
  · split at h
    next => exact Option.noConfusion h
    next v hv =>
      obtain ⟨h1, h2, -⟩ := SetMeasurement_dest h
      exact ⟨by rw [h1], by rw [h1], h2⟩
  · exact Option.noConfusion h

/-- Value inversion for `ConsumeBodyMassIndexOrDie`: the canonical value is the truncated
scaled parse of `value_`. -/
theorem ConsumeBodyMassIndexOrDie_value {r : RecordAttributes} {f n g : String}
    {p : SeriesMeta × Measurement} (h : ConsumeBodyMassIndexOrDie r f n g = some p) :
    ∃ q, ParseDoubleOrDie r.value_ = some q ∧ p.2.value = doubleToInt (mulNat q 1000000) := by
  unfold ConsumeBodyMassIndexOrDie at h
  split at h
  · split at h
    next => exact Option.noConfusion h
    next q hq =>
      obtain ⟨-, -, h3, -⟩ := SetMeasurement_dest h
      exact ⟨q, hq, h3⟩
  · exact Option.noConfusion h

/-- Value inversion for `ConsumePercentageOrDie`: the canonical value is the truncated
scaled parse of `value_`. -/
theorem ConsumePercentageOrDie_value {r : RecordAttributes} {f n g : String}
    {p : SeriesMeta × Measurement} (h : ConsumePercentageOrDie r f n g = some p) :
    ∃ q, ParseDoubleOrDie r.value_ = some q ∧ p.2.value = doubleToInt (mulNat q 1000000) := by
  unfold ConsumePercentageOrDie at h
  split at h
  · split at h
    next => exact Option.noConfusion h
    next q hq =>
      obtain ⟨-, -, h3, -⟩ := SetMeasurement_dest h
      exact ⟨q, hq, h3⟩
  · exact Option.noConfusion h

/-- Value inversion for `ConsumeCountsPerMinuteOrDie`: the canonical value is the truncated
scaled parse of `value_`. -/
theorem ConsumeCountsPerMinuteOrDie_value {r : RecordAttributes} {f n g : String}
    {p : SeriesMeta × Measurement} (h : ConsumeCountsPerMinuteOrDie r f n g = some p) :
    ∃ q, ParseDoubleOrDie r.value_ = some q ∧ p.2.value = doubleToInt (mulNat q 1000000) := by
  unfold ConsumeCountsPerMinuteOrDie at h
  split at h
  · split at h
    next => exact Option.noConfusion h
    next q hq =>
      obtain ⟨-, -, h3, -⟩ := SetMeasurement_dest h
      exact ⟨q, hq, h3⟩
  · exact Option.noConfusion h

/-- Value inversion for `ConsumeMillilitersPerKilogramMinuteOrDie`: the canonical value is the truncated
scaled parse of `value_`. -/
theorem ConsumeMillilitersPerKilogramMinuteOrDie_value {r : RecordAttributes} {f n g : String}
    {p : SeriesMeta × Measurement} (h : ConsumeMillilitersPerKilogramMinuteOrDie r f n g = some p) :
    ∃ q, ParseDoubleOrDie r.value_ = some q ∧ p.2.value = doubleToInt (mulNat q 1000000) := by
  unfold ConsumeMillilitersPerKilogramMinuteOrDie at h
  split at h
  · split at h
    next => exact Option.noConfusion h
    next q hq =>
      obtain ⟨-, -, h3, -⟩ := SetMeasurement_dest h
      exact ⟨q, hq, h3⟩
  · exact Option.noConfusion h

/-- Value inversion for `ConsumeKCalOrDie`: the canonical value is the truncated
scaled parse of `value_`. -/
theorem ConsumeKCalOrDie_value {r : RecordAttributes} {f n g : String}
    {p : SeriesMeta × Measurement} (h : ConsumeKCalOrDie r f n g = some p) :
    ∃ q, ParseDoubleOrDie r.value_ = some q ∧ p.2.value = doubleToInt (mulNat q 1000) := by
  unfold ConsumeKCalOrDie at h
  split at h
  · split at h
    next => exact Option.noConfusion h
    next q hq =>
      obtain ⟨-, -, h3, -⟩ := SetMeasurement_dest h
      exact ⟨q, hq, h3⟩
  · exact Option.noConfusion h

/-- Value inversion for `ConsumeKilometersOrDie`: the canonical value is the truncated
scaled parse of `value_`. -/
theorem ConsumeKilometersOrDie_value {r : RecordAttributes} {f n g : String}
    {p : SeriesMeta × Measurement} (h : ConsumeKilometersOrDie r f n g = some p) :
    ∃ q, ParseDoubleOrDie r.value_ = some q ∧ p.2.value = doubleToInt (mulNat q 1000000) := by
  unfold ConsumeKilometersOrDie at h
  split at h
  · split at h
    next => exact Option.noConfusion h
    next q hq =>
      obtain ⟨-, -, h3, -⟩ := SetMeasurement_dest h
      exact ⟨q, hq, h3⟩
  · exact Option.noConfusion h

/-- Value inversion for `ConsumeCentimetersOrDie`: the canonical value is the truncated
scaled parse of `value_`. -/
theorem ConsumeCentimetersOrDie_value {r : RecordAttributes} {f n g : String}
    {p : SeriesMeta × Measurement} (h : ConsumeCentimetersOrDie r f n g = some p) :
    ∃ q, ParseDoubleOrDie r.value_ = some q ∧ p.2.value = doubleToInt (mulNat q 10) := by
  unfold ConsumeCentimetersOrDie at h
  split at h
  · split at h
    next => exact Option.noConfusion h
    next q hq =>
      obtain ⟨-, -, h3, -⟩ := SetMeasurement_dest h
      exact ⟨q, hq, h3⟩
  · exact Option.noConfusion h

/-- Value inversion for `ConsumeKilogramsOrDie`: the canonical value is the truncated
scaled parse of `value_`. -/
theorem ConsumeKilogramsOrDie_value {r : RecordAttributes} {f n g : String}
    {p : SeriesMeta × Measurement} (h : ConsumeKilogramsOrDie r f n g = some p) :
    ∃ q, ParseDoubleOrDie r.value_ = some q ∧ p.2.value = doubleToInt (mulNat q 1000000) := by
  unfold ConsumeKilogramsOrDie at h
  split at h
  · split at h
    next => exact Option.noConfusion h
    next q hq =>
      obtain ⟨-, -, h3, -⟩ := SetMeasurement_dest h
      exact ⟨q, hq, h3⟩
  · exact Option.noConfusion h

/-- Value inversion for `ConsumeGramsOrDie`: the canonical value is the truncated
scaled parse of `value_`. -/
theorem ConsumeGramsOrDie_value {r : RecordAttributes} {f n g : String}
    {p : SeriesMeta × Measurement} (h : ConsumeGramsOrDie r f n g = some p) :
    ∃ q, ParseDoubleOrDie r.value_ = some q ∧ p.2.value = doubleToInt (mulNat q 1000) := by
  unfold ConsumeGramsOrDie at h
  split at h
  · split at h
    next => exact Option.noConfusion h
    next q hq =>
      obtain ⟨-, -, h3, -⟩ := SetMeasurement_dest h
      exact ⟨q, hq, h3⟩
  · exact Option.noConfusion h

/-- Value inversion for `ConsumeMilligramsOrDie`: the canonical value is the truncated
scaled parse of `value_`. -/
theorem ConsumeMilligramsOrDie_value {r : RecordAttributes} {f n g : String}
    {p : SeriesMeta × Measurement} (h : ConsumeMilligramsOrDie r f n g = some p) :
    ∃ q, ParseDoubleOrDie r.value_ = some q ∧ p.2.value = doubleToInt q := by
  unfold ConsumeMilligramsOrDie at h
  split at h
  · split at h
    next => exact Option.noConfusion h
    next q hq =>
      obtain ⟨-, -, h3, -⟩ := SetMeasurement_dest h
      exact ⟨q, hq, h3⟩
  · exact Option.noConfusion h

/-- Value inversion for `ConsumeMinutesOrDie`: the canonical value is the truncated
scaled parse of `value_`. -/
theorem ConsumeMinutesOrDie_value {r : RecordAttributes} {f n g : String}
    {p : SeriesMeta × Measurement} (h : ConsumeMinutesOrDie r f n g = some p) :
    ∃ q, ParseDoubleOrDie r.value_ = some q ∧ p.2.value = doubleToInt (mulNat (mulNat q 60) 1000) := by
  unfold ConsumeMinutesOrDie at h
  split at h
  · split at h
    next => exact Option.noConfusion h
    next q hq =>
      obtain ⟨-, -, h3, -⟩ := SetMeasurement_dest h
      exact ⟨q, hq, h3⟩
  · exact Option.noConfusion h

/-- Value inversion for `ConsumeMillisecondsOrDie`: the canonical value is the truncated
scaled parse of `value_`. -/
theorem ConsumeMillisecondsOrDie_value {r : RecordAttributes} {f n g : String}
    {p : SeriesMeta × Measurement} (h : ConsumeMillisecondsOrDie r f n g = some p) :
    ∃ q, ParseDoubleOrDie r.value_ = some q ∧ p.2.value = doubleToInt q := by
  unfold ConsumeMillisecondsOrDie at h
  split at h
  · split at h
    next => exact Option.noConfusion h
    next q hq =>
      obtain ⟨-, -, h3, -⟩ := SetMeasurement_dest h
      exact ⟨q, hq, h3⟩
  · exact Option.noConfusion h

/-- Destination inversion for `ConsumeCountableEventOrDie`. -/
theorem ConsumeCountableEventOrDie_dest {r : RecordAttributes} {f n g : String}
    {p : SeriesMeta × Measurement} (h : ConsumeCountableEventOrDie r f n g = some p) :
    p.1.name = n ∧ p.1.family = f ∧ p.2.group = g := by
  unfold ConsumeCountableEventOrDie at h
  split at h
  · obtain ⟨h1, h2, -⟩ := SetMeasurement_dest h
    exact ⟨by rw [h1], by rw [h1], h2⟩
  · exact Option.noConfusion h

/-- Destination inversion for `ConsumeDurationOrDie`. -/
theorem ConsumeDurationOrDie_dest {r : RecordAttributes} {f n g : String}
    {p : SeriesMeta × Measurement} (h : ConsumeDurationOrDie r f n g = some p) :
    p.1.name = n ∧ p.1.family = f ∧ p.2.group = g := by
  unfold ConsumeDurationOrDie at h
  split at h
  · split at h
    all_goals try (exact Option.noConfusion h)
    obtain ⟨h1, h2, -⟩ := SetMeasurement_dest h
    exact ⟨by rw [h1], by rw [h1], h2⟩
  · exact Option.noConfusion h

/-- Destination inversion for `ConsumeSleepAnalysisOrDie`: the name comes
from the `value_` sub-mapping. -/
theorem ConsumeSleepAnalysisOrDie_dest {r : RecordAttributes} {f g : String}
    {p : SeriesMeta × Measurement} (h : ConsumeSleepAnalysisOrDie r f g = some p) :
    sleepNameOf r.value_ = some p.1.name ∧ p.1.family = f ∧ p.2.group = g := by
  unfold ConsumeSleepAnalysisOrDie at h
  split at h
  · split at h
    next => exact Option.noConfusion h
    next nm hnm =>
      split at h
      all_goals try (exact Option.noConfusion h)
      obtain ⟨h1, h2, -⟩ := SetMeasurement_dest h
      exact ⟨by rw [hnm, h1], by rw [h1], h2⟩
  · exact Option.noConfusion h

/-- Destination inversion for `ConsumeStandHourOrDie`: the name comes from
the `value_` sub-mapping. -/
theorem ConsumeStandHourOrDie_dest {r : RecordAttributes} {f g : String}
    {p : SeriesMeta × Measurement} (h : ConsumeStandHourOrDie r f g = some p) :
    standNameOf r.value_ = some p.1.name ∧ p.1.family = f ∧ p.2.group = g := by
  unfold ConsumeStandHourOrDie at h
  split at h
  · split at h
    next => exact Option.noConfusion h
    next nm hnm =>
      obtain ⟨h1, h2, -⟩ := SetMeasurement_dest h
      exact ⟨by rw [hnm, h1], by rw [h1], h2⟩
  · exact Option.noConfusion h


/-- `ConsumeCountOrDie` is fatal on any unit other than `count`. -/
theorem ConsumeCountOrDie_ne {r : RecordAttributes} {f n g : String}
    (hne : r.unit_ ≠ "count") : ConsumeCountOrDie r f n g = none := by
  simp [ConsumeCountOrDie, hne]

/-- `ConsumeBodyMassIndexOrDie` is fatal on any unit other than `count`. -/
theorem ConsumeBodyMassIndexOrDie_ne {r : RecordAttributes} {f n g : String}
    (hne : r.unit_ ≠ "count") : ConsumeBodyMassIndexOrDie r f n g = none := by
  simp [ConsumeBodyMassIndexOrDie, hne]

/-- `ConsumePercentageOrDie` is fatal on any unit other than `%`. -/
theorem ConsumePercentageOrDie_ne {r : RecordAttributes} {f n g : String}
    (hne : r.unit_ ≠ "%") : ConsumePercentageOrDie r f n g = none := by
  simp [ConsumePercentageOrDie, hne]

/-- `ConsumeCountsPerMinuteOrDie` is fatal on any unit other than `count/min`. -/
theorem ConsumeCountsPerMinuteOrDie_ne {r : RecordAttributes} {f n g : String}
    (hne : r.unit_ ≠ "count/min") : ConsumeCountsPerMinuteOrDie r f n g = none := by
  simp [ConsumeCountsPerMinuteOrDie, hne]

/-- `ConsumeMillilitersPerKilogramMinuteOrDie` is fatal on any unit other than `mL/min·kg`. -/
theorem ConsumeMillilitersPerKilogramMinuteOrDie_ne {r : RecordAttributes} {f n g : String}
    (hne : r.unit_ ≠ "mL/min·kg") : ConsumeMillilitersPerKilogramMinuteOrDie r f n g = none := by
  simp [ConsumeMillilitersPerKilogramMinuteOrDie, hne]

/-- `ConsumeKCalOrDie` is fatal on any unit other than `kcal`. -/
theorem ConsumeKCalOrDie_ne {r : RecordAttributes} {f n g : String}
    (hne : r.unit_ ≠ "kcal") : ConsumeKCalOrDie r f n g = none := by
  simp [ConsumeKCalOrDie, hne]

/-- `ConsumeKilometersOrDie` is fatal on any unit other than `km`. -/
theorem ConsumeKilometersOrDie_ne {r : RecordAttributes} {f n g : String}
    (hne : r.unit_ ≠ "km") : ConsumeKilometersOrDie r f n g = none := by
  simp [ConsumeKilometersOrDie, hne]

/-- `ConsumeCentimetersOrDie` is fatal on any unit other than `cm`. -/
theorem ConsumeCentimetersOrDie_ne {r : RecordAttributes} {f n g : String}
    (hne : r.unit_ ≠ "cm") : ConsumeCentimetersOrDie r f n g = none := by
  simp [ConsumeCentimetersOrDie, hne]

/-- `ConsumeMillilitersOrDie` is fatal on any unit other than `mL`. -/
theorem ConsumeMillilitersOrDie_ne {r : RecordAttributes} {f n g : String}
    (hne : r.unit_ ≠ "mL") : ConsumeMillilitersOrDie r f n g = none := by
  simp [ConsumeMillilitersOrDie, hne]

/-- `ConsumeKilogramsOrDie` is fatal on any unit other than `kg`. -/
theorem ConsumeKilogramsOrDie_ne {r : RecordAttributes} {f n g : String}
    (hne : r.unit_ ≠ "kg") : ConsumeKilogramsOrDie r f n g = none := by
  simp [ConsumeKilogramsOrDie, hne]

/-- `ConsumeGramsOrDie` is fatal on any unit other than `g`. -/
theorem ConsumeGramsOrDie_ne {r : RecordAttributes} {f n g : String}
    (hne : r.unit_ ≠ "g") : ConsumeGramsOrDie r f n g = none := by
  simp [ConsumeGramsOrDie, hne]

/-- `ConsumeMilligramsOrDie` is fatal on any unit other than `mg`. -/
theorem ConsumeMilligramsOrDie_ne {r : RecordAttributes} {f n g : String}
    (hne : r.unit_ ≠ "mg") : ConsumeMilligramsOrDie r f n g = none := by
  simp [ConsumeMilligramsOrDie, hne]

/-- `ConsumeMinutesOrDie` is fatal on any unit other than `min`. -/
theorem ConsumeMinutesOrDie_ne {r : RecordAttributes} {f n g : String}
    (hne : r.unit_ ≠ "min") : ConsumeMinutesOrDie r f n g = none := by
  simp [ConsumeMinutesOrDie, hne]

/-- `ConsumeMillisecondsOrDie` is fatal on any unit other than `ms`. -/
theorem ConsumeMillisecondsOrDie_ne {r : RecordAttributes} {f n g : String}
    (hne : r.unit_ ≠ "ms") : ConsumeMillisecondsOrDie r f n g = none := by
  simp [ConsumeMillisecondsOrDie, hne]

/-- `ConsumeDurationOrDie` is fatal on a non-empty unit. -/
theorem ConsumeDurationOrDie_ne {r : RecordAttributes} {f n g : String}
    (hne : r.unit_ ≠ "") : ConsumeDurationOrDie r f n g = none := by
  simp [ConsumeDurationOrDie, String.isEmpty_iff, hne]

/-- `ConsumeCountableEventOrDie` is fatal on a non-empty unit. -/
theorem ConsumeCountableEventOrDie_ne {r : RecordAttributes} {f n g : String}
    (hne : r.unit_ ≠ "") : ConsumeCountableEventOrDie r f n g = none := by
  simp [ConsumeCountableEventOrDie, String.isEmpty_iff, hne]

/-- `ConsumeSleepAnalysisOrDie` is fatal on a non-empty unit. -/
theorem ConsumeSleepAnalysisOrDie_ne {r : RecordAttributes} {f g : String}
    (hne : r.unit_ ≠ "") : ConsumeSleepAnalysisOrDie r f g = none := by
  simp [ConsumeSleepAnalysisOrDie, String.isEmpty_iff, hne]

/-- `ConsumeStandHourOrDie` is fatal on a non-empty unit. -/
theorem ConsumeStandHourOrDie_ne {r : RecordAttributes} {f g : String}
    (hne : r.unit_ ≠ "") : ConsumeStandHourOrDie r f g = none := by
  simp [ConsumeStandHourOrDie, String.isEmpty_iff, hne]

/-- The body-mass example record of the spec (scenario 1). -/
def bodyMassRecord : RecordAttributes :=
  { type_ := "HKQuantityTypeIdentifierBodyMass", value_ := "70.5", unit_ := "kg",
    sourceName_ := "iPhone", startDate_ := "2020-01-01 08:00:00 +0000",
    endDate_ := "2020-01-01 08:00:00 +0000" }

/-- What processing `bodyMassRecord` produces. -/
def bodyMassPair : SeriesMeta × Measurement :=
  (⟨"Weight", "BodyMeasurements", "milligrams"⟩,
   ⟨1577865600000, 70500000, "BodyMeasurements", "HealthKit:iPhone"⟩)

/-- A second body-mass record from another device (scenario 5). -/
def watchRecord : RecordAttributes :=
  { type_ := "HKQuantityTypeIdentifierBodyMass", value_ := "71", unit_ := "kg",
    sourceName_ := "Apple Watch", startDate_ := "2020-01-01 09:00:00 +0000",
    endDate_ := "2020-01-01 09:00:00 +0000" }

/-- What processing `watchRecord` produces. -/
def watchPair : SeriesMeta × Measurement :=
  (⟨"Weight", "BodyMeasurements", "milligrams"⟩,
   ⟨1577869200000, 71000000, "BodyMeasurements", "HealthKit:AppleWatch"⟩)

/-- The series created by the first body-mass record. -/
def firstSeries : Series :=
  { name := "Weight", family := "BodyMeasurements", unit := "milligrams",
    measurements := [bodyMassPair.2] }

/-- Pipeline state after the first body-mass record. -/
def firstState : PipelineState :=
  { seriesList := [firstSeries],
    typeIndex := [("HKQuantityTypeIdentifierBodyMass", 0)] }

/-- A body-mass record declaring pounds (spec scenario 2). -/
def poundsRecord : RecordAttributes :=
  { type_ := "HKQuantityTypeIdentifierBodyMass", value_ := "155", unit_ := "lb",
    sourceName_ := "iPhone", startDate_ := "2020-01-01 08:00:00 +0000",
    endDate_ := "2020-01-01 08:00:00 +0000" }

/-- A sleep-analysis record, asleep 22:00 to 06:00 the next day
(spec scenario 3). -/
def sleepRecord : RecordAttributes :=
  { type_ := "HKCategoryTypeIdentifierSleepAnalysis",
    value_ := "HKCategoryValueSleepAnalysisAsleep", unit_ := "",
    sourceName_ := "iPhone", startDate_ := "2020-01-01 22:00:00 +0000",
    endDate_ := "2020-01-02 06:00:00 +0000" }

/-- What processing `sleepRecord` produces. -/
def sleepPair : SeriesMeta × Measurement :=
  (⟨"SleepTime", "Activity", "milliseconds"⟩,
   ⟨1577916000000, 28800000, "Activity", "HealthKit:iPhone"⟩)

/-- A mindful-session record that carries a (forbidden) value string. -/
def mindfulBadRecord : RecordAttributes :=
  { type_ := "HKCategoryTypeIdentifierMindfulSession", value_ := "3", unit_ := "",
    sourceName_ := "iPhone", startDate_ := "2020-01-01 08:00:00 +0000",
    endDate_ := "2020-01-01 08:30:00 +0000" }

/-- C1: the body-mass example record is processed into a series with
family `BodyMeasurements`, name `Weight`, unit `milligrams`, holding one
measurement with value 70500000, group `BodyMeasurements`, source
`HealthKit:iPhone`, and timestamp 1577865600000 — the epoch milliseconds
of 2020-01-01T08:00:00Z. -/
theorem bodyMass_end_to_end :
    processRecord {} bodyMassRecord =
      some { seriesList :=
               [{ name := "Weight", family := "BodyMeasurements",
                  unit := "milligrams",
                  measurements :=
                    [{ ms_since_unix_epoch := 1577865600000, value := 70500000,
                       group := "BodyMeasurements",
                       source := "HealthKit:iPhone" }] }],
             typeIndex := [("HKQuantityTypeIdentifierBodyMass", 0)] } := by decide

/-- C4: a record whose raw unit differs from the unit its matched rule
requires is fatal — no coercion happens and no measurement is produced. -/
theorem unit_mismatch_fatal {r : RecordAttributes} {u : String}
    (hu : expectedUnit r.type_ = some u) (hne : r.unit_ ≠ u) :
    AddMeasurementToSeries r = none := by
  unfold AddMeasurementToSeries
  by_cases t1 : r.type_ = "HKQuantityTypeIdentifierDietaryWater"
  · rw [t1] at hu ⊢
    injection hu with hq
    subst hq
    show ConsumeMillilitersOrDie r "Diet" "WaterConsumed" "Diet" = none
    exact ConsumeMillilitersOrDie_ne hne
  ·
    by_cases t2 : r.type_ = "HKQuantityTypeIdentifierBodyMassIndex"
    · rw [t2] at hu ⊢
      injection hu with hq
      subst hq
      show ConsumeBodyMassIndexOrDie r "BodyMeasurements" "BodyMassIndex" "BodyMeasurements" = none
      exact ConsumeBodyMassIndexOrDie_ne hne
    ·
      by_cases t3 : r.type_ = "HKQuantityTypeIdentifierHeight"
      · rw [t3] at hu ⊢
        injection hu with hq
        subst hq
        show ConsumeCentimetersOrDie r "BodyMeasurements" "Height" "BodyMeasurements" = none
        exact ConsumeCentimetersOrDie_ne hne
      ·
        by_cases t4 : r.type_ = "HKQuantityTypeIdentifierBodyMass"
        · rw [t4] at hu ⊢
          injection hu with hq
          subst hq
          show ConsumeKilogramsOrDie r "BodyMeasurements" "Weight" "BodyMeasurements" = none
          exact ConsumeKilogramsOrDie_ne hne
        ·
          by_cases t5 : r.type_ = "HKQuantityTypeIdentifierHeartRate"
          · rw [t5] at hu ⊢
            injection hu with hq
            subst hq
            show ConsumeCountsPerMinuteOrDie r "BodyMeasurements" "HeartRate" "BodyMeasurements" = none
            exact ConsumeCountsPerMinuteOrDie_ne hne
          ·
            by_cases t6 : r.type_ = "HKQuantityTypeIdentifierBodyFatPercentage"
            · rw [t6] at hu ⊢
              injection hu with hq
              subst hq
              show ConsumePercentageOrDie r "BodyMeasurements" "BodyFatPercentage" "BodyMeasurements" = none
              exact ConsumePercentageOrDie_ne hne
            ·
              by_cases t7 : r.type_ = "HKQuantityTypeIdentifierLeanBodyMass"
              · rw [t7] at hu ⊢
                injection hu with hq
                subst hq
                show ConsumeKilogramsOrDie r "BodyMeasurements" "LeanBodyMass" "BodyMeasurements" = none
                exact ConsumeKilogramsOrDie_ne hne
              ·
                by_cases t8 : r.type_ = "HKQuantityTypeIdentifierStepCount"
                · rw [t8] at hu ⊢
                  injection hu with hq
                  subst hq
                  show ConsumeCountOrDie r "Activity" "StepCount" "Activity" = none
                  exact ConsumeCountOrDie_ne hne
                ·
                  by_cases t9 : r.type_ = "HKQuantityTypeIdentifierDistanceWalkingRunning"
                  · rw [t9] at hu ⊢
                    injection hu with hq
                    subst hq
                    show ConsumeKilometersOrDie r "Activity" "WalkingRunningDistance" "Activity" = none
                    exact ConsumeKilometersOrDie_ne hne
                  ·
                    by_cases t10 : r.type_ = "HKQuantityTypeIdentifierBasalEnergyBurned"
                    · rw [t10] at hu ⊢
                      injection hu with hq
                      subst hq
                      show ConsumeKCalOrDie r "Activity" "RestingEnergy" "Activity" = none
                      exact ConsumeKCalOrDie_ne hne
                    ·
                      by_cases t11 : r.type_ = "HKQuantityTypeIdentifierActiveEnergyBurned"
                      · rw [t11] at hu ⊢
                        injection hu with hq
                        subst hq
                        show ConsumeKCalOrDie r "Activity" "ActiveEnergy" "Activity" = none
                        exact ConsumeKCalOrDie_ne hne
                      ·
                        by_cases t12 : r.type_ = "HKQuantityTypeIdentifierFlightsClimbed"
                        · rw [t12] at hu ⊢
                          injection hu with hq
                          subst hq
                          show ConsumeCountOrDie r "Activity" "FlightClimbed" "Activity" = none
                          exact ConsumeCountOrDie_ne hne
                        ·
                          by_cases t13 : r.type_ = "HKQuantityTypeIdentifierDietaryFatTotal"
                          · rw [t13] at hu ⊢
                            injection hu with hq
                            subst hq
                            show ConsumeGramsOrDie r "Diet" "TotalFatConsumed" "Diet" = none
                            exact ConsumeGramsOrDie_ne hne
                          ·
                            by_cases t14 : r.type_ = "HKQuantityTypeIdentifierDietaryFatSaturated"
                            · rw [t14] at hu ⊢
                              injection hu with hq
                              subst hq
                              show ConsumeGramsOrDie r "Diet" "SaturatedFatConsumed" "Diet" = none
                              exact ConsumeGramsOrDie_ne hne
                            ·
                              by_cases t15 : r.type_ = "HKQuantityTypeIdentifierDietaryCholesterol"
                              · rw [t15] at hu ⊢
                                injection hu with hq
                                subst hq
                                show ConsumeMilligramsOrDie r "Diet" "CholesterolConsumed" "Diet" = none
                                exact ConsumeMilligramsOrDie_ne hne
                              ·
                                by_cases t16 : r.type_ = "HKQuantityTypeIdentifierDietarySodium"
                                · rw [t16] at hu ⊢
                                  injection hu with hq
                                  subst hq
                                  show ConsumeMilligramsOrDie r "Diet" "SodiumConsumed" "Diet" = none
                                  exact ConsumeMilligramsOrDie_ne hne
                                ·
                                  by_cases t17 : r.type_ = "HKQuantityTypeIdentifierDietaryCarbohydrates"
                                  · rw [t17] at hu ⊢
                                    injection hu with hq
                                    subst hq
                                    show ConsumeGramsOrDie r "Diet" "CarbohydratesConsumed" "Diet" = none
                                    exact ConsumeGramsOrDie_ne hne
                                  ·
                                    by_cases t18 : r.type_ = "HKQuantityTypeIdentifierDietaryFiber"
                                    · rw [t18] at hu ⊢
                                      injection hu with hq
                                      subst hq
                                      show ConsumeGramsOrDie r "Diet" "FiberConsumed" "Diet" = none
                                      exact ConsumeGramsOrDie_ne hne
                                    ·
                                      by_cases t19 : r.type_ = "HKQuantityTypeIdentifierAppleExerciseTime"
                                      · rw [t19] at hu ⊢
                                        injection hu with hq
                                        subst hq
                                        show ConsumeMinutesOrDie r "TimeTracking" "ExerciseTime" "TimeTracking" = none
                                        exact ConsumeMinutesOrDie_ne hne
                                      ·
                                        by_cases t20 : r.type_ = "HKQuantityTypeIdentifierDietaryCaffeine"
                                        · rw [t20] at hu ⊢
                                          injection hu with hq
                                          subst hq
                                          show ConsumeMilligramsOrDie r "Diet" "CaffeineConsumed" "Diet" = none
                                          exact ConsumeMilligramsOrDie_ne hne
                                        ·
                                          by_cases t21 : r.type_ = "HKQuantityTypeIdentifierDistanceCycling"
                                          · rw [t21] at hu ⊢
                                            injection hu with hq
                                            subst hq
                                            show ConsumeKilometersOrDie r "Activity" "DistanceCycling" "Activity" = none
                                            exact ConsumeKilometersOrDie_ne hne
                                          ·
                                            by_cases t22 : r.type_ = "HKQuantityTypeIdentifierRestingHeartRate"
                                            · rw [t22] at hu ⊢
                                              injection hu with hq
                                              subst hq
                                              show ConsumeCountsPerMinuteOrDie r "BodyMeasurements" "RestingHeartRate" "BodyMeasurements" = none
                                              exact ConsumeCountsPerMinuteOrDie_ne hne
                                            ·
                                              by_cases t23 : r.type_ = "HKQuantityTypeIdentifierVO2Max"
                                              · rw [t23] at hu ⊢
                                                injection hu with hq
                                                subst hq
                                                show ConsumeMillilitersPerKilogramMinuteOrDie r "BodyMeasurements" "VO2Max" "BodyMeasurements" = none
                                                exact ConsumeMillilitersPerKilogramMinuteOrDie_ne hne
                                              ·
                                                by_cases t24 : r.type_ = "HKQuantityTypeIdentifierWalkingHeartRateAverage"
                                                · rw [t24] at hu ⊢
                                                  injection hu with hq
                                                  subst hq
                                                  show ConsumeCountsPerMinuteOrDie r "BodyMeasurements" "WalkingHeartRateAvg" "BodyMeasurements" = none
                                                  exact ConsumeCountsPerMinuteOrDie_ne hne
                                                ·
                                                  by_cases t25 : r.type_ = "HKCategoryTypeIdentifierSleepAnalysis"
                                                  · rw [t25] at hu ⊢
                                                    injection hu with hq
                                                    subst hq
                                                    show ConsumeSleepAnalysisOrDie r "Activity" "Activity" = none
                                                    exact ConsumeSleepAnalysisOrDie_ne hne
                                                  ·
                                                    by_cases t26 : r.type_ = "HKCategoryTypeIdentifierAppleStandHour"
                                                    · rw [t26] at hu ⊢
                                                      injection hu with hq
                                                      subst hq
                                                      show ConsumeStandHourOrDie r "Activity" "Activity" = none
                                                      exact ConsumeStandHourOrDie_ne hne
                                                    ·
                                                      by_cases t27 : r.type_ = "HKCategoryTypeIdentifierSexualActivity"
                                                      · rw [t27] at hu ⊢
                                                        injection hu with hq
                                                        subst hq
                                                        show ConsumeCountableEventOrDie r "Activity" "SexualActivityCount" "Activity" = none
                                                        exact ConsumeCountableEventOrDie_ne hne
                                                      ·
                                                        by_cases t28 : r.type_ = "HKCategoryTypeIdentifierMindfulSession"
                                                        · rw [t28] at hu ⊢
                                                          injection hu with hq
                                                          subst hq
                                                          show ConsumeDurationOrDie r "TimeTracking" "MindfulnessTime" "TimeTracking" = none
                                                          exact ConsumeDurationOrDie_ne hne
                                                        ·
                                                          by_cases t29 : r.type_ = "HKQuantityTypeIdentifierHeartRateVariabilitySDNN"
                                                          · rw [t29] at hu ⊢
                                                            injection hu with hq
                                                            subst hq
                                                            show ConsumeMillisecondsOrDie r "BodyMeasurements" "HeartRateVariability" "BodyMeasurements" = none
                                                            exact ConsumeMillisecondsOrDie_ne hne
                                                          ·
                                                            by_cases t30 : r.type_ = "HKQuantityTypeIdentifierDietarySugar"
                                                            · rw [t30] at hu ⊢
                                                              injection hu with hq
                                                              subst hq
                                                              show ConsumeGramsOrDie r "Diet" "SugarConsumed" "Diet" = none
                                                              exact ConsumeGramsOrDie_ne hne
                                                            ·
                                                              by_cases t31 : r.type_ = "HKQuantityTypeIdentifierDietaryEnergyConsumed"
                                                              · rw [t31] at hu ⊢
                                                                injection hu with hq
                                                                subst hq
                                                                show ConsumeKCalOrDie r "Diet" "CaloriesConsumed" "Diet" = none
                                                                exact ConsumeKCalOrDie_ne hne
                                                              ·
                                                                by_cases t32 : r.type_ = "HKQuantityTypeIdentifierDietaryProtein"
                                                                · rw [t32] at hu ⊢
                                                                  injection hu with hq
                                                                  subst hq
                                                                  show ConsumeGramsOrDie r "Diet" "ProteinConsumed" "Diet" = none
                                                                  exact ConsumeGramsOrDie_ne hne
                                                                ·
                                                                  by_cases t33 : r.type_ = "HKQuantityTypeIdentifierDietaryPotassium"
                                                                  · rw [t33] at hu ⊢
                                                                    injection hu with hq
                                                                    subst hq
                                                                    show ConsumeMilligramsOrDie r "Diet" "PotassiumConsumed" "Diet" = none
                                                                    exact ConsumeMilligramsOrDie_ne hne
                                                                  ·
                                                                    rw [if_neg t1, if_neg t2, if_neg t3, if_neg t4, if_neg t5, if_neg t6, if_neg t7, if_neg t8, if_neg t9, if_neg t10, if_neg t11, if_neg t12, if_neg t13, if_neg t14, if_neg t15, if_neg t16, if_neg t17, if_neg t18, if_neg t19, if_neg t20, if_neg t21, if_neg t22, if_neg t23, if_neg t24, if_neg t25, if_neg t26, if_neg t27, if_neg t28, if_neg t29, if_neg t30, if_neg t31, if_neg t32, if_neg t33]

/-- C4 witness: the pounds-instead-of-kilograms body-mass record aborts. -/
theorem unit_mismatch_fatal_witness :
    expectedUnit poundsRecord.type_ = some "kg" ∧ poundsRecord.unit_ ≠ "kg" ∧
    AddMeasurementToSeries poundsRecord = none :=
  ⟨by decide, by decide, @unit_mismatch_fatal poundsRecord "kg" (by decide) (by decide)⟩

/-- C6: for a sleep-analysis record the destination name is selected from
the enumerated value set (Asleep → SleepTime, InBed → InBedTime, Awake →
AwakeTime), the measurement value is the end-date minus start-date epoch
milliseconds, and any value outside that set is fatal. -/
theorem sleep_analysis_spec {r : RecordAttributes}
    (ht : r.type_ = "HKCategoryTypeIdentifierSleepAnalysis") :
    (sleepNameOf "HKCategoryValueSleepAnalysisAsleep" = some "SleepTime" ∧
     sleepNameOf "HKCategoryValueSleepAnalysisInBed" = some "InBedTime" ∧
     sleepNameOf "HKCategoryValueSleepAnalysisAwake" = some "AwakeTime") ∧
    (∀ p, AddMeasurementToSeries r = some p →
       sleepNameOf r.value_ = some p.1.name ∧
       ∃ e s, ParseDateOrDie r.endDate_ = some e ∧
         ParseDateOrDie r.startDate_ = some s ∧ p.2.value = e - s) ∧
    (sleepNameOf r.value_ = none → AddMeasurementToSeries r = none) := by
  refine ⟨⟨by decide, by decide, by decide⟩, ?_, ?_⟩
  · intro p h
    unfold AddMeasurementToSeries at h
    rw [ht] at h
    replace h : ConsumeSleepAnalysisOrDie r "Activity" "Activity" = some p := h
    unfold ConsumeSleepAnalysisOrDie at h
    split at h
    · split at h
      next => exact Option.noConfusion h
      next nm hnm =>
        split at h
        all_goals try (exact Option.noConfusion h)
        next e s he hs =>
          obtain ⟨h1, -, h3, -⟩ := SetMeasurement_dest h
          exact ⟨by rw [hnm, h1], e, s, he, hs, by rw [h3]⟩
    · exact Option.noConfusion h
  · intro hnone
    unfold AddMeasurementToSeries
    rw [ht]
    show ConsumeSleepAnalysisOrDie r "Activity" "Activity" = none
    unfold ConsumeSleepAnalysisOrDie
    split
    · rw [hnone]
    · rfl

/-- C6 witness: the asleep example record maps to `SleepTime` and the
eight-hour duration. -/
theorem sleep_analysis_spec_witness :
    sleepNameOf sleepRecord.value_ = some sleepPair.1.name ∧
    ∃ e s, ParseDateOrDie sleepRecord.endDate_ = some e ∧
      ParseDateOrDie sleepRecord.startDate_ = some s ∧ sleepPair.2.value = e - s :=
  (@sleep_analysis_spec sleepRecord (by decide)).2.1 sleepPair (by decide)

/-- C8: every measurement a successful `SetMeasurement` writes carries the
source tag `"HealthKit:" ++ ToCamelCase sourceName`, and an empty source
name is fatal. -/
theorem source_tag {r : RecordAttributes} {f n g u : String} {v : Int} :
    (∀ p, SetMeasurement r f n g u v = some p →
       p.2.source = "HealthKit:" ++ ToCamelCase r.sourceName_ ∧
       r.sourceName_ ≠ "") ∧
    (r.sourceName_ = "" → SetMeasurement r f n g u v = none) := by
  constructor
  · intro p h
    obtain ⟨-, -, -, h4, h5, -⟩ := SetMeasurement_dest h
    refine ⟨h4, fun he => ?_⟩
    rw [← String.isEmpty_iff] at he
    rw [he] at h5
    exact Bool.noConfusion h5
  · intro he
    unfold SetMeasurement
    split
    · rfl
    · rw [he]
      rfl

/-- C8 witness: a two-word source name is camel-cased into the tag. -/
theorem source_tag_witness :
    watchPair.2.source = "HealthKit:" ++ ToCamelCase watchRecord.sourceName_ ∧
    watchRecord.sourceName_ ≠ "" :=
  (@source_tag watchRecord "BodyMeasurements" "Weight" "BodyMeasurements"
    "milligrams" 71000000).1 watchPair (by decide)

/-- C9: the numeric parsers accept leading whitespace and an explicit
leading sign — only what follows the number is held to strictness (a
trailing character is still fatal). -/
theorem leading_forms_accepted :
    ParseIntOrDie " 42" = some 42 ∧ ParseIntOrDie "+42" = some 42 ∧
    ParseDoubleOrDie " 42" = some (mkRat 42 1) ∧
    ParseDoubleOrDie "+42" = some (mkRat 42 1) ∧
    ParseIntOrDie "42x" = none ∧ ParseDoubleOrDie "42x" = none := by decide

/-- C10: a mindful-session record is converted only when both its value
and unit are empty; a non-empty value (or unit) is fatal even though the
duration derivation never reads the value. -/
theorem mindful_requires_empty {r : RecordAttributes}
    (ht : r.type_ = "HKCategoryTypeIdentifierMindfulSession")
    (hne : r.value_ ≠ "" ∨ r.unit_ ≠ "") :
    AddMeasurementToSeries r = none := by
  unfold AddMeasurementToSeries
  rw [ht]
  show ConsumeDurationOrDie r "TimeTracking" "MindfulnessTime" "TimeTracking" = none
  rcases hne with h | h <;>
    simp [ConsumeDurationOrDie, String.isEmpty_iff, h]

/-- C10 witness: a mindful-session record carrying value `"3"` aborts. -/
theorem mindful_requires_empty_witness :
    mindfulBadRecord.value_ ≠ "" ∧
    AddMeasurementToSeries mindfulBadRecord = none :=
  ⟨by decide,
   @mindful_requires_empty mindfulBadRecord (by decide) (Or.inl (by decide))⟩


/-- A cholesterol record whose value `0.5` is not an integral number of
milligrams. -/
def cholesterolHalfRecord : RecordAttributes :=
  { type_ := "HKQuantityTypeIdentifierDietaryCholesterol", value_ := "0.5",
    unit_ := "mg", sourceName_ := "iPhone",
    startDate_ := "2020-01-01 08:00:00 +0000",
    endDate_ := "2020-01-01 08:00:00 +0000" }

/-- C2 counterexample: for the valid milligram record with value `"0.5"`
(scale factor 1) the produced canonical value is 0, which is not the
parsed value times the scale factor (1/2): the conversion truncates. -/
theorem scale_exactness_counterexample :
    ParseDoubleOrDie cholesterolHalfRecord.value_ = some (mkRat 1 2) ∧
    scaleOf cholesterolHalfRecord.type_ = some 1 ∧
    (AddMeasurementToSeries cholesterolHalfRecord).map (fun p => p.2.value) =
      some 0 ∧
    ¬ (((0 : Int) : ℚ) = mkRat 1 2 * ((1 : Nat) : ℚ)) := by
  refine ⟨by decide, by decide, by decide, ?_⟩
  rw [Nat.cast_one, mul_one]
  intro hcontra
  exact absurd hcontra (by decide)

/-- C2 (amended): for every record matching a rule with a multiplicative
scale factor, the produced canonical value is the truncation toward zero
of parsed value × scale; it equals parsed value × scale itself whenever
that product is an integer. (Re-running the conversion trivially yields
the same result: the embedding shows it is a pure function of the
record.) -/
theorem scale_truncation {r : RecordAttributes} {s : Nat} {q : ℚ}
    {p : SeriesMeta × Measurement}
    (hs : scaleOf r.type_ = some s)
    (hq : ParseDoubleOrDie r.value_ = some q)
    (h : AddMeasurementToSeries r = some p) :
    p.2.value = doubleToInt (q * (s : ℚ)) ∧
    (∀ z : Int, q * (s : ℚ) = (z : ℚ) → p.2.value = z) := by
  suffices hv : p.2.value = doubleToInt (q * (s : ℚ)) by
    refine ⟨hv, fun z hz => ?_⟩
    rw [hv, hz, doubleToInt_intCast]
  unfold AddMeasurementToSeries at h
  by_cases t1 : r.type_ = "HKQuantityTypeIdentifierDietaryWater"
  · rw [t1] at hs
    injection hs
  ·
    by_cases t2 : r.type_ = "HKQuantityTypeIdentifierBodyMassIndex"
    · rw [t2] at hs
      injection hs with hs2
      subst hs2
      rw [t2] at h
      replace h : ConsumeBodyMassIndexOrDie r "BodyMeasurements" "BodyMassIndex" "BodyMeasurements" = some p := h
      obtain ⟨w, hw, hv⟩ := ConsumeBodyMassIndexOrDie_value h
      rw [hq] at hw
      injection hw with hw2
      subst hw2
      rw [hv, mulNat_eq]
    ·
      by_cases t3 : r.type_ = "HKQuantityTypeIdentifierHeight"
      · rw [t3] at hs
        injection hs with hs2
        subst hs2
        rw [t3] at h
        replace h : ConsumeCentimetersOrDie r "BodyMeasurements" "Height" "BodyMeasurements" = some p := h
        obtain ⟨w, hw, hv⟩ := ConsumeCentimetersOrDie_value h
        rw [hq] at hw
        injection hw with hw2
        subst hw2
        rw [hv, mulNat_eq]
      ·
        by_cases t4 : r.type_ = "HKQuantityTypeIdentifierBodyMass"
        · rw [t4] at hs
          injection hs with hs2
          subst hs2
          rw [t4] at h
          replace h : ConsumeKilogramsOrDie r "BodyMeasurements" "Weight" "BodyMeasurements" = some p := h
          obtain ⟨w, hw, hv⟩ := ConsumeKilogramsOrDie_value h
          rw [hq] at hw
          injection hw with hw2
          subst hw2
          rw [hv, mulNat_eq]
        ·
          by_cases t5 : r.type_ = "HKQuantityTypeIdentifierHeartRate"
          · rw [t5] at hs
            injection hs with hs2
            subst hs2
            rw [t5] at h
            replace h : ConsumeCountsPerMinuteOrDie r "BodyMeasurements" "HeartRate" "BodyMeasurements" = some p := h
            obtain ⟨w, hw, hv⟩ := ConsumeCountsPerMinuteOrDie_value h
            rw [hq] at hw
            injection hw with hw2
            subst hw2
            rw [hv, mulNat_eq]
          ·
            by_cases t6 : r.type_ = "HKQuantityTypeIdentifierBodyFatPercentage"
            · rw [t6] at hs
              injection hs with hs2
              subst hs2
              rw [t6] at h
              replace h : ConsumePercentageOrDie r "BodyMeasurements" "BodyFatPercentage" "BodyMeasurements" = some p := h
              obtain ⟨w, hw, hv⟩ := ConsumePercentageOrDie_value h
              rw [hq] at hw
              injection hw with hw2
              subst hw2
              rw [hv, mulNat_eq]
            ·
              by_cases t7 : r.type_ = "HKQuantityTypeIdentifierLeanBodyMass"
              · rw [t7] at hs
                injection hs with hs2
                subst hs2
                rw [t7] at h
                replace h : ConsumeKilogramsOrDie r "BodyMeasurements" "LeanBodyMass" "BodyMeasurements" = some p := h
                obtain ⟨w, hw, hv⟩ := ConsumeKilogramsOrDie_value h
                rw [hq] at hw
                injection hw with hw2
                subst hw2
                rw [hv, mulNat_eq]
              ·
                by_cases t8 : r.type_ = "HKQuantityTypeIdentifierStepCount"
                · rw [t8] at hs
                  injection hs
                ·
                  by_cases t9 : r.type_ = "HKQuantityTypeIdentifierDistanceWalkingRunning"
                  · rw [t9] at hs
                    injection hs with hs2
                    subst hs2
                    rw [t9] at h
                    replace h : ConsumeKilometersOrDie r "Activity" "WalkingRunningDistance" "Activity" = some p := h
                    obtain ⟨w, hw, hv⟩ := ConsumeKilometersOrDie_value h
                    rw [hq] at hw
                    injection hw with hw2
                    subst hw2
                    rw [hv, mulNat_eq]
                  ·
                    by_cases t10 : r.type_ = "HKQuantityTypeIdentifierBasalEnergyBurned"
                    · rw [t10] at hs
                      injection hs with hs2
                      subst hs2
                      rw [t10] at h
                      replace h : ConsumeKCalOrDie r "Activity" "RestingEnergy" "Activity" = some p := h
                      obtain ⟨w, hw, hv⟩ := ConsumeKCalOrDie_value h
                      rw [hq] at hw
                      injection hw with hw2
                      subst hw2
                      rw [hv, mulNat_eq]
                    ·
                      by_cases t11 : r.type_ = "HKQuantityTypeIdentifierActiveEnergyBurned"
                      · rw [t11] at hs
                        injection hs with hs2
                        subst hs2
                        rw [t11] at h
                        replace h : ConsumeKCalOrDie r "Activity" "ActiveEnergy" "Activity" = some p := h
                        obtain ⟨w, hw, hv⟩ := ConsumeKCalOrDie_value h
                        rw [hq] at hw
                        injection hw with hw2
                        subst hw2
                        rw [hv, mulNat_eq]
                      ·
                        by_cases t12 : r.type_ = "HKQuantityTypeIdentifierFlightsClimbed"
                        · rw [t12] at hs
                          injection hs
                        ·
                          by_cases t13 : r.type_ = "HKQuantityTypeIdentifierDietaryFatTotal"
                          · rw [t13] at hs
                            injection hs with hs2
                            subst hs2
                            rw [t13] at h
                            replace h : ConsumeGramsOrDie r "Diet" "TotalFatConsumed" "Diet" = some p := h
                            obtain ⟨w, hw, hv⟩ := ConsumeGramsOrDie_value h
                            rw [hq] at hw
                            injection hw with hw2
                            subst hw2
                            rw [hv, mulNat_eq]
                          ·
                            by_cases t14 : r.type_ = "HKQuantityTypeIdentifierDietaryFatSaturated"
                            · rw [t14] at hs
                              injection hs with hs2
                              subst hs2
                              rw [t14] at h
                              replace h : ConsumeGramsOrDie r "Diet" "SaturatedFatConsumed" "Diet" = some p := h
                              obtain ⟨w, hw, hv⟩ := ConsumeGramsOrDie_value h
                              rw [hq] at hw
                              injection hw with hw2
                              subst hw2
                              rw [hv, mulNat_eq]
                            ·
                              by_cases t15 : r.type_ = "HKQuantityTypeIdentifierDietaryCholesterol"
                              · rw [t15] at hs
                                injection hs with hs2
                                subst hs2
                                rw [t15] at h
                                replace h : ConsumeMilligramsOrDie r "Diet" "CholesterolConsumed" "Diet" = some p := h
                                obtain ⟨w, hw, hv⟩ := ConsumeMilligramsOrDie_value h
                                rw [hq] at hw
                                injection hw with hw2
                                subst hw2
                                rw [hv, Nat.cast_one, mul_one]
                              ·
                                by_cases t16 : r.type_ = "HKQuantityTypeIdentifierDietarySodium"
                                · rw [t16] at hs
                                  injection hs with hs2
                                  subst hs2
                                  rw [t16] at h
                                  replace h : ConsumeMilligramsOrDie r "Diet" "SodiumConsumed" "Diet" = some p := h
                                  obtain ⟨w, hw, hv⟩ := ConsumeMilligramsOrDie_value h
                                  rw [hq] at hw
                                  injection hw with hw2
                                  subst hw2
                                  rw [hv, Nat.cast_one, mul_one]
                                ·
                                  by_cases t17 : r.type_ = "HKQuantityTypeIdentifierDietaryCarbohydrates"
                                  · rw [t17] at hs
                                    injection hs with hs2
                                    subst hs2
                                    rw [t17] at h
                                    replace h : ConsumeGramsOrDie r "Diet" "CarbohydratesConsumed" "Diet" = some p := h
                                    obtain ⟨w, hw, hv⟩ := ConsumeGramsOrDie_value h
                                    rw [hq] at hw
                                    injection hw with hw2
                                    subst hw2
                                    rw [hv, mulNat_eq]
                                  ·
                                    by_cases t18 : r.type_ = "HKQuantityTypeIdentifierDietaryFiber"
                                    · rw [t18] at hs
                                      injection hs with hs2
                                      subst hs2
                                      rw [t18] at h
                                      replace h : ConsumeGramsOrDie r "Diet" "FiberConsumed" "Diet" = some p := h
                                      obtain ⟨w, hw, hv⟩ := ConsumeGramsOrDie_value h
                                      rw [hq] at hw
                                      injection hw with hw2
                                      subst hw2
                                      rw [hv, mulNat_eq]
                                    ·
                                      by_cases t19 : r.type_ = "HKQuantityTypeIdentifierAppleExerciseTime"
                                      · rw [t19] at hs
                                        injection hs with hs2
                                        subst hs2
                                        rw [t19] at h
                                        replace h : ConsumeMinutesOrDie r "TimeTracking" "ExerciseTime" "TimeTracking" = some p := h
                                        obtain ⟨w, hw, hv⟩ := ConsumeMinutesOrDie_value h
                                        rw [hq] at hw
                                        injection hw with hw2
                                        subst hw2
                                        rw [hv, mulNat_eq, mulNat_eq]
                                        congr 1
                                        push_cast
                                        ring
                                      ·
                                        by_cases t20 : r.type_ = "HKQuantityTypeIdentifierDietaryCaffeine"
                                        · rw [t20] at hs
                                          injection hs with hs2
                                          subst hs2
                                          rw [t20] at h
                                          replace h : ConsumeMilligramsOrDie r "Diet" "CaffeineConsumed" "Diet" = some p := h
                                          obtain ⟨w, hw, hv⟩ := ConsumeMilligramsOrDie_value h
                                          rw [hq] at hw
                                          injection hw with hw2
                                          subst hw2
                                          rw [hv, Nat.cast_one, mul_one]
                                        ·
                                          by_cases t21 : r.type_ = "HKQuantityTypeIdentifierDistanceCycling"
                                          · rw [t21] at hs
                                            injection hs with hs2
                                            subst hs2
                                            rw [t21] at h
                                            replace h : ConsumeKilometersOrDie r "Activity" "DistanceCycling" "Activity" = some p := h
                                            obtain ⟨w, hw, hv⟩ := ConsumeKilometersOrDie_value h
                                            rw [hq] at hw
                                            injection hw with hw2
                                            subst hw2
                                            rw [hv, mulNat_eq]
                                          ·
                                            by_cases t22 : r.type_ = "HKQuantityTypeIdentifierRestingHeartRate"
                                            · rw [t22] at hs
                                              injection hs with hs2
                                              subst hs2
                                              rw [t22] at h
                                              replace h : ConsumeCountsPerMinuteOrDie r "BodyMeasurements" "RestingHeartRate" "BodyMeasurements" = some p := h
                                              obtain ⟨w, hw, hv⟩ := ConsumeCountsPerMinuteOrDie_value h
                                              rw [hq] at hw
                                              injection hw with hw2
                                              subst hw2
                                              rw [hv, mulNat_eq]
                                            ·
                                              by_cases t23 : r.type_ = "HKQuantityTypeIdentifierVO2Max"
                                              · rw [t23] at hs
                                                injection hs with hs2
                                                subst hs2
                                                rw [t23] at h
                                                replace h : ConsumeMillilitersPerKilogramMinuteOrDie r "BodyMeasurements" "VO2Max" "BodyMeasurements" = some p := h
                                                obtain ⟨w, hw, hv⟩ := ConsumeMillilitersPerKilogramMinuteOrDie_value h
                                                rw [hq] at hw
                                                injection hw with hw2
                                                subst hw2
                                                rw [hv, mulNat_eq]
                                              ·
                                                by_cases t24 : r.type_ = "HKQuantityTypeIdentifierWalkingHeartRateAverage"
                                                · rw [t24] at hs
                                                  injection hs with hs2
                                                  subst hs2
                                                  rw [t24] at h
                                                  replace h : ConsumeCountsPerMinuteOrDie r "BodyMeasurements" "WalkingHeartRateAvg" "BodyMeasurements" = some p := h
                                                  obtain ⟨w, hw, hv⟩ := ConsumeCountsPerMinuteOrDie_value h
                                                  rw [hq] at hw
                                                  injection hw with hw2
                                                  subst hw2
                                                  rw [hv, mulNat_eq]
                                                ·
                                                  by_cases t25 : r.type_ = "HKCategoryTypeIdentifierSleepAnalysis"
                                                  · rw [t25] at hs
                                                    injection hs
                                                  ·
                                                    by_cases t26 : r.type_ = "HKCategoryTypeIdentifierAppleStandHour"
                                                    · rw [t26] at hs
                                                      injection hs
                                                    ·
                                                      by_cases t27 : r.type_ = "HKCategoryTypeIdentifierSexualActivity"
                                                      · rw [t27] at hs
                                                        injection hs
                                                      ·
                                                        by_cases t28 : r.type_ = "HKCategoryTypeIdentifierMindfulSession"
                                                        · rw [t28] at hs
                                                          injection hs
                                                        ·
                                                          by_cases t29 : r.type_ = "HKQuantityTypeIdentifierHeartRateVariabilitySDNN"
                                                          · rw [t29] at hs
                                                            injection hs with hs2
                                                            subst hs2
                                                            rw [t29] at h
                                                            replace h : ConsumeMillisecondsOrDie r "BodyMeasurements" "HeartRateVariability" "BodyMeasurements" = some p := h
                                                            obtain ⟨w, hw, hv⟩ := ConsumeMillisecondsOrDie_value h
                                                            rw [hq] at hw
                                                            injection hw with hw2
                                                            subst hw2
                                                            rw [hv, Nat.cast_one, mul_one]
                                                          ·
                                                            by_cases t30 : r.type_ = "HKQuantityTypeIdentifierDietarySugar"
                                                            · rw [t30] at hs
                                                              injection hs with hs2
                                                              subst hs2
                                                              rw [t30] at h
                                                              replace h : ConsumeGramsOrDie r "Diet" "SugarConsumed" "Diet" = some p := h
                                                              obtain ⟨w, hw, hv⟩ := ConsumeGramsOrDie_value h
                                                              rw [hq] at hw
                                                              injection hw with hw2
                                                              subst hw2
                                                              rw [hv, mulNat_eq]
                                                            ·
                                                              by_cases t31 : r.type_ = "HKQuantityTypeIdentifierDietaryEnergyConsumed"
                                                              · rw [t31] at hs
                                                                injection hs with hs2
                                                                subst hs2
                                                                rw [t31] at h
                                                                replace h : ConsumeKCalOrDie r "Diet" "CaloriesConsumed" "Diet" = some p := h
                                                                obtain ⟨w, hw, hv⟩ := ConsumeKCalOrDie_value h
                                                                rw [hq] at hw
                                                                injection hw with hw2
                                                                subst hw2
                                                                rw [hv, mulNat_eq]
                                                              ·
                                                                by_cases t32 : r.type_ = "HKQuantityTypeIdentifierDietaryProtein"
                                                                · rw [t32] at hs
                                                                  injection hs with hs2
                                                                  subst hs2
                                                                  rw [t32] at h
                                                                  replace h : ConsumeGramsOrDie r "Diet" "ProteinConsumed" "Diet" = some p := h
                                                                  obtain ⟨w, hw, hv⟩ := ConsumeGramsOrDie_value h
                                                                  rw [hq] at hw
                                                                  injection hw with hw2
                                                                  subst hw2
                                                                  rw [hv, mulNat_eq]
                                                                ·
                                                                  by_cases t33 : r.type_ = "HKQuantityTypeIdentifierDietaryPotassium"
                                                                  · rw [t33] at hs
                                                                    injection hs with hs2
                                                                    subst hs2
                                                                    rw [t33] at h
                                                                    replace h : ConsumeMilligramsOrDie r "Diet" "PotassiumConsumed" "Diet" = some p := h
                                                                    obtain ⟨w, hw, hv⟩ := ConsumeMilligramsOrDie_value h
                                                                    rw [hq] at hw
                                                                    injection hw with hw2
                                                                    subst hw2
                                                                    rw [hv, Nat.cast_one, mul_one]
                                                                  ·
                                                                    rw [if_neg t1, if_neg t2, if_neg t3, if_neg t4, if_neg t5, if_neg t6, if_neg t7, if_neg t8, if_neg t9, if_neg t10, if_neg t11, if_neg t12, if_neg t13, if_neg t14, if_neg t15, if_neg t16, if_neg t17, if_neg t18, if_neg t19, if_neg t20, if_neg t21, if_neg t22, if_neg t23, if_neg t24, if_neg t25, if_neg t26, if_neg t27, if_neg t28, if_neg t29, if_neg t30, if_neg t31, if_neg t32, if_neg t33] at h
                                                                    exact Option.noConfusion h

/-- C2 witness: the body-mass example, where 70.5 kg scales exactly to
70500000 milligrams. -/
theorem scale_truncation_witness :
    bodyMassPair.2.value = doubleToInt (mkRat 141 2 * ((1000000 : Nat) : ℚ)) ∧
    bodyMassPair.2.value = 70500000 :=
  ⟨(@scale_truncation bodyMassRecord 1000000 (mkRat 141 2) bodyMassPair
      (by decide) (by decide) (by decide)).1,
   by decide⟩

/-- C3: attribute extraction succeeds exactly when the scan over the raw
attribute list ends in one of the three allowed outcomes: 6 attributes
consumed; 5 with the unit field empty; 4 with the unit and value fields
both empty. -/
theorem extraction_acceptance (attrs : List (String × String)) :
    (CreateFromXmlRecord attrs).isSome ↔
      ∃ r c, scanAttrs attrs {} 0 = some (r, c) ∧
        (c = 6 ∨ (c = 5 ∧ r.unit_ = "") ∨
          (c = 4 ∧ r.unit_ = "" ∧ r.value_ = "")) := by
  unfold CreateFromXmlRecord
  cases hscan : scanAttrs attrs ({} : RecordAttributes) 0 with
  | none => simp
  | some rc =>
    obtain ⟨r, c⟩ := rc
    have he : ("" : String).isEmpty = true := rfl
    dsimp only
    constructor
    · intro hsome
      refine ⟨r, c, rfl, ?_⟩
      split_ifs at hsome with h1 h2 h3
      · exact Or.inl h1
      · exact Or.inr (Or.inl ⟨h2.1, (String.isEmpty_iff _).mp h2.2⟩)
      · exact Or.inr (Or.inr ⟨h3.1, (String.isEmpty_iff _).mp h3.2.1,
          (String.isEmpty_iff _).mp h3.2.2⟩)
      · simp at hsome
    · rintro ⟨r2, c2, heq, hcase⟩
      simp only [Option.some.injEq, Prod.mk.injEq] at heq
      obtain ⟨rfl, rfl⟩ := heq
      rcases hcase with h6 | ⟨h5, hu⟩ | ⟨h4, hu, hv⟩
      · subst h6; simp
      · subst h5; simp [hu, he]
      · subst h4; simp [hu, hv, he]

/-- C3 witness: a full six-attribute record element is accepted, and the
scan reports six consumed attributes. -/
theorem extraction_acceptance_witness :
    (CreateFromXmlRecord
        [("type", "HKQuantityTypeIdentifierBodyMass"), ("unit", "kg"),
         ("value", "70.5"), ("sourceName", "iPhone"),
         ("startDate", "2020-01-01 08:00:00 +0000"),
         ("endDate", "2020-01-01 08:00:00 +0000")]).isSome ↔
      ∃ r c, scanAttrs
          [("type", "HKQuantityTypeIdentifierBodyMass"), ("unit", "kg"),
           ("value", "70.5"), ("sourceName", "iPhone"),
           ("startDate", "2020-01-01 08:00:00 +0000"),
           ("endDate", "2020-01-01 08:00:00 +0000")] {} 0 = some (r, c) ∧
        (c = 6 ∨ (c = 5 ∧ r.unit_ = "") ∨
          (c = 4 ∧ r.unit_ = "" ∧ r.value_ = "")) :=
  extraction_acceptance
    [("type", "HKQuantityTypeIdentifierBodyMass"), ("unit", "kg"),
     ("value", "70.5"), ("sourceName", "iPhone"),
     ("startDate", "2020-01-01 08:00:00 +0000"),
     ("endDate", "2020-01-01 08:00:00 +0000")]

/-- Two sleep-analysis records of equal type whose values select
different destination names. -/
def sleepInBedRecord : RecordAttributes :=
  { type_ := "HKCategoryTypeIdentifierSleepAnalysis",
    value_ := "HKCategoryValueSleepAnalysisInBed", unit_ := "",
    sourceName_ := "iPhone", startDate_ := "2020-01-01 21:30:00 +0000",
    endDate_ := "2020-01-02 06:30:00 +0000" }

/-- C5 counterexample: two records of the same type are classified to
series metadata with different destination names — the destination
`(family, name, group)` triple is not a function of the type alone. -/
theorem classification_fixed_name_counterexample :
    sleepRecord.type_ = sleepInBedRecord.type_ ∧
    (AddMeasurementToSeries sleepRecord).map (fun p => p.1.name) =
      some "SleepTime" ∧
    (AddMeasurementToSeries sleepInBedRecord).map (fun p => p.1.name) =
      some "InBedTime" := by
  refine ⟨by decide, by decide, by decide⟩

/-- C5 (amended): classification is a closed, exhaustive dispatch — a type
outside the known set is fatal —, and for every successfully classified
record the destination family and group are fixed functions of the type
(group always equal to family); the destination name is likewise fixed by
the type except for the sleep-analysis and stand-hour category types,
whose name is selected from the record value by an enumerated
sub-mapping. -/
theorem classification_closed {r : RecordAttributes} :
    (r.type_ ∉ knownTypes → AddMeasurementToSeries r = none) ∧
    (∀ p, AddMeasurementToSeries r = some p →
      r.type_ ∈ knownTypes ∧ familyOf r.type_ = some p.1.family ∧
      p.2.group = p.1.family ∧
      (∀ nm, nameOf r.type_ = some nm → p.1.name = nm)) := by
  constructor
  case left =>
    intro hnot
    unfold AddMeasurementToSeries
    by_cases t1 : r.type_ = "HKQuantityTypeIdentifierDietaryWater"
    · exact absurd (by rw [t1]; decide) hnot
    ·
      by_cases t2 : r.type_ = "HKQuantityTypeIdentifierBodyMassIndex"
      · exact absurd (by rw [t2]; decide) hnot
      ·
        by_cases t3 : r.type_ = "HKQuantityTypeIdentifierHeight"
        · exact absurd (by rw [t3]; decide) hnot
        ·
          by_cases t4 : r.type_ = "HKQuantityTypeIdentifierBodyMass"
          · exact absurd (by rw [t4]; decide) hnot
          ·
            by_cases t5 : r.type_ = "HKQuantityTypeIdentifierHeartRate"
            · exact absurd (by rw [t5]; decide) hnot
            ·
              by_cases t6 : r.type_ = "HKQuantityTypeIdentifierBodyFatPercentage"
              · exact absurd (by rw [t6]; decide) hnot
              ·
                by_cases t7 : r.type_ = "HKQuantityTypeIdentifierLeanBodyMass"
                · exact absurd (by rw [t7]; decide) hnot
                ·
                  by_cases t8 : r.type_ = "HKQuantityTypeIdentifierStepCount"
                  · exact absurd (by rw [t8]; decide) hnot
                  ·
                    by_cases t9 : r.type_ = "HKQuantityTypeIdentifierDistanceWalkingRunning"
                    · exact absurd (by rw [t9]; decide) hnot
                    ·
                      by_cases t10 : r.type_ = "HKQuantityTypeIdentifierBasalEnergyBurned"
                      · exact absurd (by rw [t10]; decide) hnot
                      ·
                        by_cases t11 : r.type_ = "HKQuantityTypeIdentifierActiveEnergyBurned"
                        · exact absurd (by rw [t11]; decide) hnot
                        ·
                          by_cases t12 : r.type_ = "HKQuantityTypeIdentifierFlightsClimbed"
                          · exact absurd (by rw [t12]; decide) hnot
                          ·
                            by_cases t13 : r.type_ = "HKQuantityTypeIdentifierDietaryFatTotal"
                            · exact absurd (by rw [t13]; decide) hnot
                            ·
                              by_cases t14 : r.type_ = "HKQuantityTypeIdentifierDietaryFatSaturated"
                              · exact absurd (by rw [t14]; decide) hnot
                              ·
                                by_cases t15 : r.type_ = "HKQuantityTypeIdentifierDietaryCholesterol"
                                · exact absurd (by rw [t15]; decide) hnot
                                ·
                                  by_cases t16 : r.type_ = "HKQuantityTypeIdentifierDietarySodium"
                                  · exact absurd (by rw [t16]; decide) hnot
                                  ·
                                    by_cases t17 : r.type_ = "HKQuantityTypeIdentifierDietaryCarbohydrates"
                                    · exact absurd (by rw [t17]; decide) hnot
                                    ·
                                      by_cases t18 : r.type_ = "HKQuantityTypeIdentifierDietaryFiber"
                                      · exact absurd (by rw [t18]; decide) hnot
                                      ·
                                        by_cases t19 : r.type_ = "HKQuantityTypeIdentifierAppleExerciseTime"
                                        · exact absurd (by rw [t19]; decide) hnot
                                        ·
                                          by_cases t20 : r.type_ = "HKQuantityTypeIdentifierDietaryCaffeine"
                                          · exact absurd (by rw [t20]; decide) hnot
                                          ·
                                            by_cases t21 : r.type_ = "HKQuantityTypeIdentifierDistanceCycling"
                                            · exact absurd (by rw [t21]; decide) hnot
                                            ·
                                              by_cases t22 : r.type_ = "HKQuantityTypeIdentifierRestingHeartRate"
                                              · exact absurd (by rw [t22]; decide) hnot
                                              ·
                                                by_cases t23 : r.type_ = "HKQuantityTypeIdentifierVO2Max"
                                                · exact absurd (by rw [t23]; decide) hnot
                                                ·
                                                  by_cases t24 : r.type_ = "HKQuantityTypeIdentifierWalkingHeartRateAverage"
                                                  · exact absurd (by rw [t24]; decide) hnot
                                                  ·
                                                    by_cases t25 : r.type_ = "HKCategoryTypeIdentifierSleepAnalysis"
                                                    · exact absurd (by rw [t25]; decide) hnot
                                                    ·
                                                      by_cases t26 : r.type_ = "HKCategoryTypeIdentifierAppleStandHour"
                                                      · exact absurd (by rw [t26]; decide) hnot
                                                      ·
                                                        by_cases t27 : r.type_ = "HKCategoryTypeIdentifierSexualActivity"
                                                        · exact absurd (by rw [t27]; decide) hnot
                                                        ·
                                                          by_cases t28 : r.type_ = "HKCategoryTypeIdentifierMindfulSession"
                                                          · exact absurd (by rw [t28]; decide) hnot
                                                          ·
                                                            by_cases t29 : r.type_ = "HKQuantityTypeIdentifierHeartRateVariabilitySDNN"
                                                            · exact absurd (by rw [t29]; decide) hnot
                                                            ·
                                                              by_cases t30 : r.type_ = "HKQuantityTypeIdentifierDietarySugar"
                                                              · exact absurd (by rw [t30]; decide) hnot
                                                              ·
                                                                by_cases t31 : r.type_ = "HKQuantityTypeIdentifierDietaryEnergyConsumed"
                                                                · exact absurd (by rw [t31]; decide) hnot
                                                                ·
                                                                  by_cases t32 : r.type_ = "HKQuantityTypeIdentifierDietaryProtein"
                                                                  · exact absurd (by rw [t32]; decide) hnot
                                                                  ·
                                                                    by_cases t33 : r.type_ = "HKQuantityTypeIdentifierDietaryPotassium"
                                                                    · exact absurd (by rw [t33]; decide) hnot
                                                                    ·
                                                                      rw [if_neg t1, if_neg t2, if_neg t3, if_neg t4, if_neg t5, if_neg t6, if_neg t7, if_neg t8, if_neg t9, if_neg t10, if_neg t11, if_neg t12, if_neg t13, if_neg t14, if_neg t15, if_neg t16, if_neg t17, if_neg t18, if_neg t19, if_neg t20, if_neg t21, if_neg t22, if_neg t23, if_neg t24, if_neg t25, if_neg t26, if_neg t27, if_neg t28, if_neg t29, if_neg t30, if_neg t31, if_neg t32, if_neg t33]
  case right =>
    intro p h
    unfold AddMeasurementToSeries at h
    by_cases t1 : r.type_ = "HKQuantityTypeIdentifierDietaryWater"
    · rw [t1] at h
      replace h : ConsumeMillilitersOrDie r "Diet" "WaterConsumed" "Diet" = some p := h
      obtain ⟨h1, h2, h3⟩ := ConsumeMillilitersOrDie_dest h
      refine ⟨?_, ?_, ?_, ?_⟩
      · rw [t1]; decide
      · rw [t1, h2]; decide
      · rw [h3, h2]
      · intro nm hnm
        rw [t1] at hnm
        injection hnm with h4
        exact h1.trans h4
    ·
      by_cases t2 : r.type_ = "HKQuantityTypeIdentifierBodyMassIndex"
      · rw [t2] at h
        replace h : ConsumeBodyMassIndexOrDie r "BodyMeasurements" "BodyMassIndex" "BodyMeasurements" = some p := h
        obtain ⟨h1, h2, h3⟩ := ConsumeBodyMassIndexOrDie_dest h
        refine ⟨?_, ?_, ?_, ?_⟩
        · rw [t2]; decide
        · rw [t2, h2]; decide
        · rw [h3, h2]
        · intro nm hnm
          rw [t2] at hnm
          injection hnm with h4
          exact h1.trans h4
      ·
        by_cases t3 : r.type_ = "HKQuantityTypeIdentifierHeight"
        · rw [t3] at h
          replace h : ConsumeCentimetersOrDie r "BodyMeasurements" "Height" "BodyMeasurements" = some p := h
          obtain ⟨h1, h2, h3⟩ := ConsumeCentimetersOrDie_dest h
          refine ⟨?_, ?_, ?_, ?_⟩
          · rw [t3]; decide
          · rw [t3, h2]; decide
          · rw [h3, h2]
          · intro nm hnm
            rw [t3] at hnm
            injection hnm with h4
            exact h1.trans h4
        ·
          by_cases t4 : r.type_ = "HKQuantityTypeIdentifierBodyMass"
          · rw [t4] at h
            replace h : ConsumeKilogramsOrDie r "BodyMeasurements" "Weight" "BodyMeasurements" = some p := h
            obtain ⟨h1, h2, h3⟩ := ConsumeKilogramsOrDie_dest h
            refine ⟨?_, ?_, ?_, ?_⟩
            · rw [t4]; decide
            · rw [t4, h2]; decide
            · rw [h3, h2]
            · intro nm hnm
              rw [t4] at hnm
              injection hnm with h4
              exact h1.trans h4
          ·
            by_cases t5 : r.type_ = "HKQuantityTypeIdentifierHeartRate"
            · rw [t5] at h
              replace h : ConsumeCountsPerMinuteOrDie r "BodyMeasurements" "HeartRate" "BodyMeasurements" = some p := h
              obtain ⟨h1, h2, h3⟩ := ConsumeCountsPerMinuteOrDie_dest h
              refine ⟨?_, ?_, ?_, ?_⟩
              · rw [t5]; decide
              · rw [t5, h2]; decide
              · rw [h3, h2]
              · intro nm hnm
                rw [t5] at hnm
                injection hnm with h4
                exact h1.trans h4
            ·
              by_cases t6 : r.type_ = "HKQuantityTypeIdentifierBodyFatPercentage"
              · rw [t6] at h
                replace h : ConsumePercentageOrDie r "BodyMeasurements" "BodyFatPercentage" "BodyMeasurements" = some p := h
                obtain ⟨h1, h2, h3⟩ := ConsumePercentageOrDie_dest h
                refine ⟨?_, ?_, ?_, ?_⟩
                · rw [t6]; decide
                · rw [t6, h2]; decide
                · rw [h3, h2]
                · intro nm hnm
                  rw [t6] at hnm
                  injection hnm with h4
                  exact h1.trans h4
              ·
                by_cases t7 : r.type_ = "HKQuantityTypeIdentifierLeanBodyMass"
                · rw [t7] at h
                  replace h : ConsumeKilogramsOrDie r "BodyMeasurements" "LeanBodyMass" "BodyMeasurements" = some p := h
                  obtain ⟨h1, h2, h3⟩ := ConsumeKilogramsOrDie_dest h
                  refine ⟨?_, ?_, ?_, ?_⟩
                  · rw [t7]; decide
                  · rw [t7, h2]; decide
                  · rw [h3, h2]
                  · intro nm hnm
                    rw [t7] at hnm
                    injection hnm with h4
                    exact h1.trans h4
                ·
                  by_cases t8 : r.type_ = "HKQuantityTypeIdentifierStepCount"
                  · rw [t8] at h
                    replace h : ConsumeCountOrDie r "Activity" "StepCount" "Activity" = some p := h
                    obtain ⟨h1, h2, h3⟩ := ConsumeCountOrDie_dest h
                    refine ⟨?_, ?_, ?_, ?_⟩
                    · rw [t8]; decide
                    · rw [t8, h2]; decide
                    · rw [h3, h2]
                    · intro nm hnm
                      rw [t8] at hnm
                      injection hnm with h4
                      exact h1.trans h4
                  ·
                    by_cases t9 : r.type_ = "HKQuantityTypeIdentifierDistanceWalkingRunning"
                    · rw [t9] at h
                      replace h : ConsumeKilometersOrDie r "Activity" "WalkingRunningDistance" "Activity" = some p := h
                      obtain ⟨h1, h2, h3⟩ := ConsumeKilometersOrDie_dest h
                      refine ⟨?_, ?_, ?_, ?_⟩
                      · rw [t9]; decide
                      · rw [t9, h2]; decide
                      · rw [h3, h2]
                      · intro nm hnm
                        rw [t9] at hnm
                        injection hnm with h4
                        exact h1.trans h4
                    ·
                      by_cases t10 : r.type_ = "HKQuantityTypeIdentifierBasalEnergyBurned"
                      · rw [t10] at h
                        replace h : ConsumeKCalOrDie r "Activity" "RestingEnergy" "Activity" = some p := h
                        obtain ⟨h1, h2, h3⟩ := ConsumeKCalOrDie_dest h
                        refine ⟨?_, ?_, ?_, ?_⟩
                        · rw [t10]; decide
                        · rw [t10, h2]; decide
                        · rw [h3, h2]
                        · intro nm hnm
                          rw [t10] at hnm
                          injection hnm with h4
                          exact h1.trans h4
                      ·
                        by_cases t11 : r.type_ = "HKQuantityTypeIdentifierActiveEnergyBurned"
                        · rw [t11] at h
                          replace h : ConsumeKCalOrDie r "Activity" "ActiveEnergy" "Activity" = some p := h
                          obtain ⟨h1, h2, h3⟩ := ConsumeKCalOrDie_dest h
                          refine ⟨?_, ?_, ?_, ?_⟩
                          · rw [t11]; decide
                          · rw [t11, h2]; decide
                          · rw [h3, h2]
                          · intro nm hnm
                            rw [t11] at hnm
                            injection hnm with h4
                            exact h1.trans h4
                        ·
                          by_cases t12 : r.type_ = "HKQuantityTypeIdentifierFlightsClimbed"
                          · rw [t12] at h
                            replace h : ConsumeCountOrDie r "Activity" "FlightClimbed" "Activity" = some p := h
                            obtain ⟨h1, h2, h3⟩ := ConsumeCountOrDie_dest h
                            refine ⟨?_, ?_, ?_, ?_⟩
                            · rw [t12]; decide
                            · rw [t12, h2]; decide
                            · rw [h3, h2]
                            · intro nm hnm
                              rw [t12] at hnm
                              injection hnm with h4
                              exact h1.trans h4
                          ·
                            by_cases t13 : r.type_ = "HKQuantityTypeIdentifierDietaryFatTotal"
                            · rw [t13] at h
                              replace h : ConsumeGramsOrDie r "Diet" "TotalFatConsumed" "Diet" = some p := h
                              obtain ⟨h1, h2, h3⟩ := ConsumeGramsOrDie_dest h
                              refine ⟨?_, ?_, ?_, ?_⟩
                              · rw [t13]; decide
                              · rw [t13, h2]; decide
                              · rw [h3, h2]
                              · intro nm hnm
                                rw [t13] at hnm
                                injection hnm with h4
                                exact h1.trans h4
                            ·
                              by_cases t14 : r.type_ = "HKQuantityTypeIdentifierDietaryFatSaturated"
                              · rw [t14] at h
                                replace h : ConsumeGramsOrDie r "Diet" "SaturatedFatConsumed" "Diet" = some p := h
                                obtain ⟨h1, h2, h3⟩ := ConsumeGramsOrDie_dest h
                                refine ⟨?_, ?_, ?_, ?_⟩
                                · rw [t14]; decide
                                · rw [t14, h2]; decide
                                · rw [h3, h2]
                                · intro nm hnm
                                  rw [t14] at hnm
                                  injection hnm with h4
                                  exact h1.trans h4
                              ·
                                by_cases t15 : r.type_ = "HKQuantityTypeIdentifierDietaryCholesterol"
                                · rw [t15] at h
                                  replace h : ConsumeMilligramsOrDie r "Diet" "CholesterolConsumed" "Diet" = some p := h
                                  obtain ⟨h1, h2, h3⟩ := ConsumeMilligramsOrDie_dest h
                                  refine ⟨?_, ?_, ?_, ?_⟩
                                  · rw [t15]; decide
                                  · rw [t15, h2]; decide
                                  · rw [h3, h2]
                                  · intro nm hnm
                                    rw [t15] at hnm
                                    injection hnm with h4
                                    exact h1.trans h4
                                ·
                                  by_cases t16 : r.type_ = "HKQuantityTypeIdentifierDietarySodium"
                                  · rw [t16] at h
                                    replace h : ConsumeMilligramsOrDie r "Diet" "SodiumConsumed" "Diet" = some p := h
                                    obtain ⟨h1, h2, h3⟩ := ConsumeMilligramsOrDie_dest h
                                    refine ⟨?_, ?_, ?_, ?_⟩
                                    · rw [t16]; decide
                                    · rw [t16, h2]; decide
                                    · rw [h3, h2]
                                    · intro nm hnm
                                      rw [t16] at hnm
                                      injection hnm with h4
                                      exact h1.trans h4
                                  ·
                                    by_cases t17 : r.type_ = "HKQuantityTypeIdentifierDietaryCarbohydrates"
                                    · rw [t17] at h
                                      replace h : ConsumeGramsOrDie r "Diet" "CarbohydratesConsumed" "Diet" = some p := h
                                      obtain ⟨h1, h2, h3⟩ := ConsumeGramsOrDie_dest h
                                      refine ⟨?_, ?_, ?_, ?_⟩
                                      · rw [t17]; decide
                                      · rw [t17, h2]; decide
                                      · rw [h3, h2]
                                      · intro nm hnm
                                        rw [t17] at hnm
                                        injection hnm with h4
                                        exact h1.trans h4
                                    ·
                                      by_cases t18 : r.type_ = "HKQuantityTypeIdentifierDietaryFiber"
                                      · rw [t18] at h
                                        replace h : ConsumeGramsOrDie r "Diet" "FiberConsumed" "Diet" = some p := h
                                        obtain ⟨h1, h2, h3⟩ := ConsumeGramsOrDie_dest h
                                        refine ⟨?_, ?_, ?_, ?_⟩
                                        · rw [t18]; decide
                                        · rw [t18, h2]; decide
                                        · rw [h3, h2]
                                        · intro nm hnm
                                          rw [t18] at hnm
                                          injection hnm with h4
                                          exact h1.trans h4
                                      ·
                                        by_cases t19 : r.type_ = "HKQuantityTypeIdentifierAppleExerciseTime"
                                        · rw [t19] at h
                                          replace h : ConsumeMinutesOrDie r "TimeTracking" "ExerciseTime" "TimeTracking" = some p := h
                                          obtain ⟨h1, h2, h3⟩ := ConsumeMinutesOrDie_dest h
                                          refine ⟨?_, ?_, ?_, ?_⟩
                                          · rw [t19]; decide
                                          · rw [t19, h2]; decide
                                          · rw [h3, h2]
                                          · intro nm hnm
                                            rw [t19] at hnm
                                            injection hnm with h4
                                            exact h1.trans h4
                                        ·
                                          by_cases t20 : r.type_ = "HKQuantityTypeIdentifierDietaryCaffeine"
                                          · rw [t20] at h
                                            replace h : ConsumeMilligramsOrDie r "Diet" "CaffeineConsumed" "Diet" = some p := h
                                            obtain ⟨h1, h2, h3⟩ := ConsumeMilligramsOrDie_dest h
                                            refine ⟨?_, ?_, ?_, ?_⟩
                                            · rw [t20]; decide
                                            · rw [t20, h2]; decide
                                            · rw [h3, h2]
                                            · intro nm hnm
                                              rw [t20] at hnm
                                              injection hnm with h4
                                              exact h1.trans h4
                                          ·
                                            by_cases t21 : r.type_ = "HKQuantityTypeIdentifierDistanceCycling"
                                            · rw [t21] at h
                                              replace h : ConsumeKilometersOrDie r "Activity" "DistanceCycling" "Activity" = some p := h
                                              obtain ⟨h1, h2, h3⟩ := ConsumeKilometersOrDie_dest h
                                              refine ⟨?_, ?_, ?_, ?_⟩
                                              · rw [t21]; decide
                                              · rw [t21, h2]; decide
                                              · rw [h3, h2]
                                              · intro nm hnm
                                                rw [t21] at hnm
                                                injection hnm with h4
                                                exact h1.trans h4
                                            ·
                                              by_cases t22 : r.type_ = "HKQuantityTypeIdentifierRestingHeartRate"
                                              · rw [t22] at h
                                                replace h : ConsumeCountsPerMinuteOrDie r "BodyMeasurements" "RestingHeartRate" "BodyMeasurements" = some p := h
                                                obtain ⟨h1, h2, h3⟩ := ConsumeCountsPerMinuteOrDie_dest h
                                                refine ⟨?_, ?_, ?_, ?_⟩
                                                · rw [t22]; decide
                                                · rw [t22, h2]; decide
                                                · rw [h3, h2]
                                                · intro nm hnm
                                                  rw [t22] at hnm
                                                  injection hnm with h4
                                                  exact h1.trans h4
                                              ·
                                                by_cases t23 : r.type_ = "HKQuantityTypeIdentifierVO2Max"
                                                · rw [t23] at h
                                                  replace h : ConsumeMillilitersPerKilogramMinuteOrDie r "BodyMeasurements" "VO2Max" "BodyMeasurements" = some p := h
                                                  obtain ⟨h1, h2, h3⟩ := ConsumeMillilitersPerKilogramMinuteOrDie_dest h
                                                  refine ⟨?_, ?_, ?_, ?_⟩
                                                  · rw [t23]; decide
                                                  · rw [t23, h2]; decide
                                                  · rw [h3, h2]
                                                  · intro nm hnm
                                                    rw [t23] at hnm
                                                    injection hnm with h4
                                                    exact h1.trans h4
                                                ·
                                                  by_cases t24 : r.type_ = "HKQuantityTypeIdentifierWalkingHeartRateAverage"
                                                  · rw [t24] at h
                                                    replace h : ConsumeCountsPerMinuteOrDie r "BodyMeasurements" "WalkingHeartRateAvg" "BodyMeasurements" = some p := h
                                                    obtain ⟨h1, h2, h3⟩ := ConsumeCountsPerMinuteOrDie_dest h
                                                    refine ⟨?_, ?_, ?_, ?_⟩
                                                    · rw [t24]; decide
                                                    · rw [t24, h2]; decide
                                                    · rw [h3, h2]
                                                    · intro nm hnm
                                                      rw [t24] at hnm
                                                      injection hnm with h4
                                                      exact h1.trans h4
                                                  ·
                                                    by_cases t25 : r.type_ = "HKCategoryTypeIdentifierSleepAnalysis"
                                                    · rw [t25] at h
                                                      replace h : ConsumeSleepAnalysisOrDie r "Activity" "Activity" = some p := h
                                                      obtain ⟨h1, h2, h3⟩ := ConsumeSleepAnalysisOrDie_dest h
                                                      refine ⟨?_, ?_, ?_, ?_⟩
                                                      · rw [t25]; decide
                                                      · rw [t25, h2]; decide
                                                      · rw [h3, h2]
                                                      · intro nm hnm
                                                        rw [t25] at hnm
                                                        injection hnm
                                                    ·
                                                      by_cases t26 : r.type_ = "HKCategoryTypeIdentifierAppleStandHour"
                                                      · rw [t26] at h
                                                        replace h : ConsumeStandHourOrDie r "Activity" "Activity" = some p := h
                                                        obtain ⟨h1, h2, h3⟩ := ConsumeStandHourOrDie_dest h
                                                        refine ⟨?_, ?_, ?_, ?_⟩
                                                        · rw [t26]; decide
                                                        · rw [t26, h2]; decide
                                                        · rw [h3, h2]
                                                        · intro nm hnm
                                                          rw [t26] at hnm
                                                          injection hnm
                                                      ·
                                                        by_cases t27 : r.type_ = "HKCategoryTypeIdentifierSexualActivity"
                                                        · rw [t27] at h
                                                          replace h : ConsumeCountableEventOrDie r "Activity" "SexualActivityCount" "Activity" = some p := h
                                                          obtain ⟨h1, h2, h3⟩ := ConsumeCountableEventOrDie_dest h
                                                          refine ⟨?_, ?_, ?_, ?_⟩
                                                          · rw [t27]; decide
                                                          · rw [t27, h2]; decide
                                                          · rw [h3, h2]
                                                          · intro nm hnm
                                                            rw [t27] at hnm
                                                            injection hnm with h4
                                                            exact h1.trans h4
                                                        ·
                                                          by_cases t28 : r.type_ = "HKCategoryTypeIdentifierMindfulSession"
                                                          · rw [t28] at h
                                                            replace h : ConsumeDurationOrDie r "TimeTracking" "MindfulnessTime" "TimeTracking" = some p := h
                                                            obtain ⟨h1, h2, h3⟩ := ConsumeDurationOrDie_dest h
                                                            refine ⟨?_, ?_, ?_, ?_⟩
                                                            · rw [t28]; decide
                                                            · rw [t28, h2]; decide
                                                            · rw [h3, h2]
                                                            · intro nm hnm
                                                              rw [t28] at hnm
                                                              injection hnm with h4
                                                              exact h1.trans h4
                                                          ·
                                                            by_cases t29 : r.type_ = "HKQuantityTypeIdentifierHeartRateVariabilitySDNN"
                                                            · rw [t29] at h
                                                              replace h : ConsumeMillisecondsOrDie r "BodyMeasurements" "HeartRateVariability" "BodyMeasurements" = some p := h
                                                              obtain ⟨h1, h2, h3⟩ := ConsumeMillisecondsOrDie_dest h
                                                              refine ⟨?_, ?_, ?_, ?_⟩
                                                              · rw [t29]; decide
                                                              · rw [t29, h2]; decide
                                                              · rw [h3, h2]
                                                              · intro nm hnm
                                                                rw [t29] at hnm
                                                                injection hnm with h4
                                                                exact h1.trans h4
                                                            ·
                                                              by_cases t30 : r.type_ = "HKQuantityTypeIdentifierDietarySugar"
                                                              · rw [t30] at h
                                                                replace h : ConsumeGramsOrDie r "Diet" "SugarConsumed" "Diet" = some p := h
                                                                obtain ⟨h1, h2, h3⟩ := ConsumeGramsOrDie_dest h
                                                                refine ⟨?_, ?_, ?_, ?_⟩
                                                                · rw [t30]; decide
                                                                · rw [t30, h2]; decide
                                                                · rw [h3, h2]
                                                                · intro nm hnm
                                                                  rw [t30] at hnm
                                                                  injection hnm with h4
                                                                  exact h1.trans h4
                                                              ·
                                                                by_cases t31 : r.type_ = "HKQuantityTypeIdentifierDietaryEnergyConsumed"
                                                                · rw [t31] at h
                                                                  replace h : ConsumeKCalOrDie r "Diet" "CaloriesConsumed" "Diet" = some p := h
                                                                  obtain ⟨h1, h2, h3⟩ := ConsumeKCalOrDie_dest h
                                                                  refine ⟨?_, ?_, ?_, ?_⟩
                                                                  · rw [t31]; decide
                                                                  · rw [t31, h2]; decide
                                                                  · rw [h3, h2]
                                                                  · intro nm hnm
                                                                    rw [t31] at hnm
                                                                    injection hnm with h4
                                                                    exact h1.trans h4
                                                                ·
                                                                  by_cases t32 : r.type_ = "HKQuantityTypeIdentifierDietaryProtein"
                                                                  · rw [t32] at h
                                                                    replace h : ConsumeGramsOrDie r "Diet" "ProteinConsumed" "Diet" = some p := h
                                                                    obtain ⟨h1, h2, h3⟩ := ConsumeGramsOrDie_dest h
                                                                    refine ⟨?_, ?_, ?_, ?_⟩
                                                                    · rw [t32]; decide
                                                                    · rw [t32, h2]; decide
                                                                    · rw [h3, h2]
                                                                    · intro nm hnm
                                                                      rw [t32] at hnm
                                                                      injection hnm with h4
                                                                      exact h1.trans h4
                                                                  ·
                                                                    by_cases t33 : r.type_ = "HKQuantityTypeIdentifierDietaryPotassium"
                                                                    · rw [t33] at h
                                                                      replace h : ConsumeMilligramsOrDie r "Diet" "PotassiumConsumed" "Diet" = some p := h
                                                                      obtain ⟨h1, h2, h3⟩ := ConsumeMilligramsOrDie_dest h
                                                                      refine ⟨?_, ?_, ?_, ?_⟩
                                                                      · rw [t33]; decide
                                                                      · rw [t33, h2]; decide
                                                                      · rw [h3, h2]
                                                                      · intro nm hnm
                                                                        rw [t33] at hnm
                                                                        injection hnm with h4
                                                                        exact h1.trans h4
                                                                    ·
                                                                      rw [if_neg t1, if_neg t2, if_neg t3, if_neg t4, if_neg t5, if_neg t6, if_neg t7, if_neg t8, if_neg t9, if_neg t10, if_neg t11, if_neg t12, if_neg t13, if_neg t14, if_neg t15, if_neg t16, if_neg t17, if_neg t18, if_neg t19, if_neg t20, if_neg t21, if_neg t22, if_neg t23, if_neg t24, if_neg t25, if_neg t26, if_neg t27, if_neg t28, if_neg t29, if_neg t30, if_neg t31, if_neg t32, if_neg t33] at h
                                                                      exact Option.noConfusion h

/-- C5 witness: the body-mass record is classified to the
`BodyMeasurements` family with group equal to family and name `Weight`. -/
theorem classification_closed_witness :
    bodyMassRecord.type_ ∈ knownTypes ∧
    familyOf bodyMassRecord.type_ = some bodyMassPair.1.family ∧
    bodyMassPair.2.group = bodyMassPair.1.family :=
  ⟨((@classification_closed bodyMassRecord).2 bodyMassPair (by decide)).1,
   ((@classification_closed bodyMassRecord).2 bodyMassPair (by decide)).2.1,
   ((@classification_closed bodyMassRecord).2 bodyMassPair (by decide)).2.2.1⟩

/-- Appending a fresh registry entry makes later lookups of that type hit
it. -/
theorem lookupType_append {l : List (String × Nat)} {t : String} {v : Nat}
    (h : lookupType l t = none) : lookupType (l ++ [(t, v)]) t = some v := by
  induction l with
  | nil => simp [lookupType]
  | cons a rest ih =>
    obtain ⟨k, w⟩ := a
    simp only [lookupType, List.cons_append] at h ⊢
    by_cases hk : k = t
    · rw [if_pos hk] at h
      exact Option.noConfusion h
    · rw [if_neg hk] at h ⊢
      exact ih h

/-- C7: resolving the series for a record creates and registers exactly
one series per type: when the type is not yet registered, one new series
is appended, carrying this (first) record's metadata and measurement, and
the type is registered to it; when the type is already registered, the
series count and metadata stay unchanged and the record's own measurement
is appended to the registered series. -/
theorem registry_resolution {st : PipelineState} {r : RecordAttributes}
    {p : SeriesMeta × Measurement} (h : AddMeasurementToSeries r = some p) :
    (lookupType st.typeIndex r.type_ = none →
       processRecord st r =
         some ⟨st.seriesList ++ [⟨p.1.name, p.1.family, p.1.unit, [p.2]⟩],
               st.typeIndex ++ [(r.type_, st.seriesList.length)]⟩ ∧
       lookupType (st.typeIndex ++ [(r.type_, st.seriesList.length)]) r.type_ =
         some st.seriesList.length) ∧
    (∀ i s, lookupType st.typeIndex r.type_ = some i →
       st.seriesList.get? i = some s →
       processRecord st r =
         some ⟨st.seriesList.set i
                 { s with measurements := s.measurements ++ [p.2] },
               st.typeIndex⟩) := by
  obtain ⟨meta, m⟩ := p
  constructor
  · intro hl
    exact ⟨by simp only [processRecord, h, hl], lookupType_append hl⟩
  · intro i s hl hg
    simp only [processRecord, h, hl, hg]

/-- C7 witness: a second body-mass record from a different device joins
the already-created series — no new series, metadata untouched, its own
measurement (with its own source tag) appended. -/
theorem registry_resolution_witness :
    processRecord firstState watchRecord =
      some ⟨firstState.seriesList.set 0
              { firstSeries with
                  measurements := firstSeries.measurements ++ [watchPair.2] },
            firstState.typeIndex⟩ :=
  (@registry_resolution firstState watchRecord watchPair (by decide)).2 0
    firstSeries (by decide) (by decide)

end Me

